import Mathlib

/-!
Shallow embedding of the StellarSwipe provider revenue-share / tier-incentive
module (`src/providers/revenue-share/revenue-share.service.ts`, which contains
both `RevenueShareService` and `TierManagerService`).

Modelling conventions:
* Decimal strings (Big.js values) are embedded as exact rationals `ℚ`; every
  `Big(...).toFixed(8)` is the function `toFixed8` below (Big.js default
  rounding mode is ROUND_HALF_UP and all amounts here are non-negative, so
  half-up is `⌊q·10^8 + 1/2⌋ / 10^8`).  Big.js performs divisions to 20
  decimal places; for the divisions by 100 appearing here that intermediate
  agrees with the exact rational quotient whenever the dividend has at most
  18 fractional digits, which covers every decimal-string input, so the
  embedding uses the exact quotient.
* TypeORM repositories are lists inside an explicit `Db` state; `findOne`
  is `List.find?` (first match), `save` is an upsert keyed by the entity's
  identifier, `create`+`save` of a fresh entity is an append.
* `new Date()` is abstracted to the calendar month `(nowYear, nowMonth)`
  carried in `Db`; payout rows record their creation month, which is what the
  `Between(startOfMonth, now)` query of `checkAndIssueStreakBonus` observes
  (records are never future-dated).
* Thrown `BadRequestException` / `NotFoundException` become
  `Except.error (ServiceError.badRequest _ / .notFound _)`.
* The entity classes (`revenue-share-tier.entity.ts`, `provider-stats.entity.ts`,
  `user.entity.ts`) are not part of the sources; their field shapes are taken
  from the service code's field usage and §3 of the specification.
-/

namespace StellarSwipe

/-- Tier levels, ordered BRONZE < SILVER < GOLD < PLATINUM < ELITE. -/
inductive ProviderTierLevel
  | BRONZE | SILVER | GOLD | PLATINUM | ELITE
deriving DecidableEq, Repr

/-- Bonus categories attached to payout rows. -/
inductive BonusType
  | PERFORMANCE | MONTHLY_TOP | STREAK
deriving DecidableEq, Repr

/-- Payout lifecycle states. -/
inductive PayoutStatus
  | PENDING | PROCESSING | COMPLETED | FAILED
deriving DecidableEq, Repr

/-- `TIER_ORDER`: tier precedence used for promotion/demotion comparison. -/
def TIER_ORDER : List ProviderTierLevel :=
  [.BRONZE, .SILVER, .GOLD, .PLATINUM, .ELITE]

/-- `TIER_ORDER.indexOf t` from the source (every level occurs in the list). -/
def tierIndex : ProviderTierLevel → Nat
  | .BRONZE => 0
  | .SILVER => 1
  | .GOLD => 2
  | .PLATINUM => 3
  | .ELITE => 4

/-- `Big(q).toFixed(8)` with the default ROUND_HALF_UP rounding mode,
as a value: round `q` half-up at the 8th fractional digit. -/
def toFixed8 (q : ℚ) : ℚ :=
  (⌊q * 100000000 + 1 / 2⌋ : ℚ) / 100000000

/-- A rational is representable with 8 fractional digits (it is its own
`toFixed(8)` image). -/
def isFixed8 (q : ℚ) : Prop := toFixed8 q = q

instance (q : ℚ) : Decidable (isFixed8 q) := by
  unfold isFixed8; infer_instance

/-- `RevenueShareTier` entity (tier catalog row). -/
structure RevenueShareTier where
  tierLevel : ProviderTierLevel
  name : String
  description : String
  revenueSharePercentage : ℚ
  minWinRate : ℚ
  minSignals : Nat
  minCopiers : Nat
  minReputationScore : ℚ
  performanceBonusUsdc : ℚ
  monthlyRetentionBonusUsdc : ℚ
  isActive : Bool
  sortOrder : Nat
deriving DecidableEq, Repr

/-- `ProviderTierAssignment` entity (one row per provider). -/
structure ProviderTierAssignment where
  providerId : String
  currentTier : ProviderTierLevel
  previousTier : Option ProviderTierLevel
  winRateSnapshot : ℚ
  signalsSnapshot : Nat
  copiersSnapshot : Nat
  reputationSnapshot : ℚ
  promotionBonusPaid : Bool
  lastEvaluatedYear : Nat
  lastEvaluatedMonth : Nat
deriving DecidableEq, Repr

/-- `ProviderRevenuePayout` entity (ledger row). -/
structure ProviderRevenuePayout where
  id : Nat
  providerId : String
  tierLevel : ProviderTierLevel
  baseRevenue : ℚ
  sharePercentage : ℚ
  revenueShareAmount : ℚ
  bonusAmount : ℚ
  bonusType : Option BonusType
  totalPayout : ℚ
  assetCode : String
  providerWalletAddress : String
  status : PayoutStatus
  periodYear : Nat
  periodMonth : Nat
  stellarTxHash : Option String
  failureReason : Option String
  retryCount : Nat
  paidAt : Option (Nat × Nat)
  createdYear : Nat
  createdMonth : Nat
deriving DecidableEq, Repr

/-- `ProviderStats` entity fields consumed by this module. -/
structure ProviderStats where
  providerId : String
  winRate : ℚ
  totalSignals : Nat
  totalCopiers : Nat
  reputationScore : ℚ
  streakWins : Nat
deriving DecidableEq, Repr

/-- `User` entity fields consumed by this module. -/
structure User where
  id : String
  walletAddress : String
deriving DecidableEq, Repr

/-- Transient metrics snapshot fed into tier evaluation. -/
structure ProviderMetrics where
  providerId : String
  winRate : ℚ
  totalSignals : Nat
  totalCopiers : Nat
  reputationScore : ℚ
  walletAddress : String
deriving DecidableEq, Repr

/-- Result shape of a tier evaluation. -/
structure TierEvaluationResult where
  providerId : String
  previousTier : Option ProviderTierLevel
  newTier : ProviderTierLevel
  promoted : Bool
  demoted : Bool
  bonusTriggered : Bool
  bonusAmount : ℚ
deriving DecidableEq, Repr

/-- The persistent store plus the tier cache and the current calendar month. -/
structure Db where
  tiers : List RevenueShareTier
  tierCache : List RevenueShareTier
  assignments : List ProviderTierAssignment
  payouts : List ProviderRevenuePayout
  stats : List ProviderStats
  users : List User
  nextPayoutId : Nat
  nowYear : Nat
  nowMonth : Nat
deriving DecidableEq, Repr

/-- Error channel: `BadRequestException` (InvalidArgument / InvalidState /
LimitExceeded) and `NotFoundException`. -/
inductive ServiceError
  | badRequest (msg : String)
  | notFound (msg : String)
deriving DecidableEq, Repr

/-- Message carried by a thrown error (`err.message`). -/
def ServiceError.message : ServiceError → String
  | .badRequest m => m
  | .notFound m => m

/-- The `DEFAULT_TIERS` seed configuration from the source. -/
def DEFAULT_TIERS : List RevenueShareTier :=
  [ { tierLevel := .BRONZE, name := "Bronze Provider",
      description := "Entry-level tier for new signal providers.",
      revenueSharePercentage := 4, minWinRate := 0, minSignals := 0,
      minCopiers := 0, minReputationScore := 0, performanceBonusUsdc := 0,
      monthlyRetentionBonusUsdc := 0, isActive := true, sortOrder := 1 },
    { tierLevel := .SILVER, name := "Silver Provider",
      description := "Established providers with a consistent track record.",
      revenueSharePercentage := 6, minWinRate := 55, minSignals := 20,
      minCopiers := 10, minReputationScore := 55, performanceBonusUsdc := 10,
      monthlyRetentionBonusUsdc := 5, isActive := true, sortOrder := 2 },
    { tierLevel := .GOLD, name := "Gold Provider",
      description := "High-performing providers with strong copier engagement.",
      revenueSharePercentage := 8, minWinRate := 62, minSignals := 50,
      minCopiers := 50, minReputationScore := 65, performanceBonusUsdc := 50,
      monthlyRetentionBonusUsdc := 20, isActive := true, sortOrder := 3 },
    { tierLevel := .PLATINUM, name := "Platinum Provider",
      description := "Elite-class providers with outstanding performance.",
      revenueSharePercentage := 9, minWinRate := 68, minSignals := 100,
      minCopiers := 150, minReputationScore := 75, performanceBonusUsdc := 150,
      monthlyRetentionBonusUsdc := 50, isActive := true, sortOrder := 4 },
    { tierLevel := .ELITE, name := "Elite Provider",
      description := "Top-tier providers who receive the maximum 10 % revenue share.",
      revenueSharePercentage := 10, minWinRate := 75, minSignals := 200,
      minCopiers := 300, minReputationScore := 85, performanceBonusUsdc := 500,
      monthlyRetentionBonusUsdc := 100, isActive := true, sortOrder := 5 } ]

-- ── Repository primitives ────────────────────────────────────────────────────

/-- `payoutRepo.findOne({ where: { id } })`. -/
def findPayout (db : Db) (payoutId : Nat) : Option ProviderRevenuePayout :=
  db.payouts.find? (fun p => decide (p.id = payoutId))

/-- `assignmentRepo.findOne({ where: { providerId } })`. -/
def findAssignment (db : Db) (providerId : String) : Option ProviderTierAssignment :=
  db.assignments.find? (fun a => decide (a.providerId = providerId))

/-- `tierRepo.findOne({ where: { tierLevel } })`. -/
def findTierDef (db : Db) (tierLevel : ProviderTierLevel) : Option RevenueShareTier :=
  db.tiers.find? (fun t => decide (t.tierLevel = tierLevel))

/-- `statsRepo.findOne({ where: { providerId } })`. -/
def findStats (db : Db) (providerId : String) : Option ProviderStats :=
  db.stats.find? (fun s => decide (s.providerId = providerId))

/-- `userRepo.findOne({ where: { id: providerId } })`. -/
def findUser (db : Db) (providerId : String) : Option User :=
  db.users.find? (fun u => decide (u.id = providerId))

/-- `payoutRepo.save` on an already-persisted row: update in place (keyed by id). -/
def savePayout (db : Db) (p : ProviderRevenuePayout) : Db :=
  { db with payouts := db.payouts.map (fun q => if q.id = p.id then p else q) }

/-- `assignmentRepo.save`: upsert keyed by providerId (a freshly created
assignment is inserted, a loaded one is updated). -/
def saveAssignment (db : Db) (a : ProviderTierAssignment) : Db :=
  if db.assignments.any (fun x => decide (x.providerId = a.providerId)) then
    { db with assignments :=
        db.assignments.map (fun x => if x.providerId = a.providerId then a else x) }
  else
    { db with assignments := db.assignments ++ [a] }

-- ── TierManagerService ───────────────────────────────────────────────────────

/-- The qualification test of `resolveTierForMetrics`: all four thresholds hold. -/
def qualifies (m : ProviderMetrics) (t : RevenueShareTier) : Bool :=
  decide (t.minWinRate ≤ m.winRate) && decide (t.minSignals ≤ m.totalSignals) &&
  decide (t.minCopiers ≤ m.totalCopiers) && decide (t.minReputationScore ≤ m.reputationScore)

/-- `[...cache].sort((a, b) => TIER_ORDER.indexOf(b.tierLevel) - TIER_ORDER.indexOf(a.tierLevel))`:
a stable sort by descending tier precedence, i.e. the ELITE entries of the
cache (in cache order), then the PLATINUM ones, and so on down to BRONZE. -/
def sortTiersDesc (cache : List RevenueShareTier) : List RevenueShareTier :=
  (TIER_ORDER.reverse.map (fun lvl => cache.filter (fun t => decide (t.tierLevel = lvl)))).flatten

/-- `TierManagerService.resolveTierForMetrics`: first qualifying tier scanning
from highest to lowest precedence, BRONZE if none qualifies.  A pure function
of the cache snapshot and the metrics. -/
def resolveTierForMetrics (cache : List RevenueShareTier) (m : ProviderMetrics) :
    ProviderTierLevel :=
  match (sortTiersDesc cache).find? (fun t => qualifies m t) with
  | some t => t.tierLevel
  | none => .BRONZE

/-- Parameter object of `TierManagerService.recordPayout`. -/
structure RecordPayoutParams where
  providerId : String
  tierLevel : ProviderTierLevel
  baseRevenue : ℚ
  sharePercentage : ℚ
  revenueShareAmount : ℚ
  bonusAmount : ℚ
  bonusType : Option BonusType
  totalPayout : ℚ
  providerWalletAddress : String
  periodYear : Option Nat := none
  periodMonth : Option Nat := none
deriving DecidableEq, Repr

/-- `TierManagerService.recordPayout`: create a fresh PENDING ledger row with
assetCode "USDC", defaulting the billing period to the current month. -/
def recordPayout (db : Db) (params : RecordPayoutParams) : ProviderRevenuePayout × Db :=
  let payout : ProviderRevenuePayout :=
    { id := db.nextPayoutId
      providerId := params.providerId
      tierLevel := params.tierLevel
      baseRevenue := params.baseRevenue
      sharePercentage := params.sharePercentage
      revenueShareAmount := params.revenueShareAmount
      bonusAmount := params.bonusAmount
      bonusType := params.bonusType
      totalPayout := params.totalPayout
      assetCode := "USDC"
      providerWalletAddress := params.providerWalletAddress
      status := .PENDING
      periodYear := params.periodYear.getD db.nowYear
      periodMonth := params.periodMonth.getD db.nowMonth
      stellarTxHash := none
      failureReason := none
      retryCount := 0
      paidAt := none
      createdYear := db.nowYear
      createdMonth := db.nowMonth }
  (payout,
   { db with payouts := db.payouts ++ [payout], nextPayoutId := db.nextPayoutId + 1 })

/-- `TierManagerService.evaluateProviderWithMetrics`: resolve the new tier,
detect promotion/demotion against the stored assignment, refresh the snapshot,
and on promotion with a truthy wallet address and a positive
`performanceBonusUsdc` record a PERFORMANCE payout and set
`promotionBonusPaid := true`.  (The source reads `promotionBonusPaid` nowhere;
it only ever writes it.) -/
def evaluateProviderWithMetrics (db : Db) (m : ProviderMetrics) :
    TierEvaluationResult × Db :=
  let newTier := resolveTierForMetrics db.tierCache m
  let existing := findAssignment db m.providerId
  let previousTier : Option ProviderTierLevel := existing.map (fun a => a.currentTier)
  let wasPromoted := existing.any (fun a => decide (tierIndex a.currentTier < tierIndex newTier))
  let wasDemoted := existing.any (fun a => decide (tierIndex newTier < tierIndex a.currentTier))
  let assignment : ProviderTierAssignment :=
    match existing with
    | none =>
        { providerId := m.providerId, currentTier := newTier, previousTier := none
          winRateSnapshot := m.winRate, signalsSnapshot := m.totalSignals
          copiersSnapshot := m.totalCopiers, reputationSnapshot := m.reputationScore
          promotionBonusPaid := false
          lastEvaluatedYear := db.nowYear, lastEvaluatedMonth := db.nowMonth }
    | some a =>
        { a with previousTier := some a.currentTier, currentTier := newTier
                 winRateSnapshot := m.winRate, signalsSnapshot := m.totalSignals
                 copiersSnapshot := m.totalCopiers, reputationSnapshot := m.reputationScore
                 lastEvaluatedYear := db.nowYear, lastEvaluatedMonth := db.nowMonth }
  let tierDef := db.tierCache.find? (fun t => decide (t.tierLevel = newTier))
  let payBonus : Option RevenueShareTier :=
    if wasPromoted && decide (m.walletAddress ≠ "") then
      match tierDef with
      | some td => if decide ((0 : ℚ) < td.performanceBonusUsdc) then some td else none
      | none => none
    else none
  match payBonus with
  | some td =>
      let bonusAmount := td.performanceBonusUsdc
      let db1 := (recordPayout db
        { providerId := m.providerId, tierLevel := newTier, baseRevenue := 0
          sharePercentage := 0, revenueShareAmount := 0, bonusAmount := bonusAmount
          bonusType := some .PERFORMANCE, totalPayout := bonusAmount
          providerWalletAddress := m.walletAddress }).2
      let db2 := saveAssignment db1 { assignment with promotionBonusPaid := true }
      ({ providerId := m.providerId, previousTier := previousTier, newTier := newTier
         promoted := wasPromoted, demoted := wasDemoted
         bonusTriggered := true, bonusAmount := bonusAmount }, db2)
  | none =>
      let db2 := saveAssignment db assignment
      ({ providerId := m.providerId, previousTier := previousTier, newTier := newTier
         promoted := wasPromoted, demoted := wasDemoted
         bonusTriggered := false, bonusAmount := 0 }, db2)

/-- `TierManagerService.evaluateProvider`: build the metrics snapshot from the
stats row (all-zero when absent) with an EMPTY wallet address, then delegate. -/
def evaluateProvider (db : Db) (providerId : String) : TierEvaluationResult × Db :=
  let stats := findStats db providerId
  let m : ProviderMetrics :=
    { providerId := providerId
      winRate := (stats.map (fun s => s.winRate)).getD 0
      totalSignals := (stats.map (fun s => s.totalSignals)).getD 0
      totalCopiers := (stats.map (fun s => s.totalCopiers)).getD 0
      reputationScore := (stats.map (fun s => s.reputationScore)).getD 0
      walletAddress := "" }
  evaluateProviderWithMetrics db m

/-- `TierManagerService.evaluateAllProviders`: evaluate every provider that has
a stats row, collecting the results (the per-provider try/catch is vacuous in
this model, where evaluation cannot throw). -/
def evaluateAllProviders (db : Db) : List TierEvaluationResult × Db :=
  db.stats.foldl
    (fun acc s =>
      let r := evaluateProvider acc.2 s.providerId
      (acc.1 ++ [r.1], r.2))
    (([] : List TierEvaluationResult), db)

-- ── RevenueShareService ──────────────────────────────────────────────────────

/-- Result of `calculateRevenueShare` (`RevenueShareCalculationDto`). -/
structure RevenueShareCalculationDto where
  providerId : String
  tierLevel : ProviderTierLevel
  sharePercentage : ℚ
  baseRevenue : ℚ
  revenueShareAmount : ℚ
  bonusAmount : ℚ
  bonusType : Option BonusType
  totalPayout : ℚ
deriving DecidableEq, Repr

/-- Lines 121–132 of `calculateRevenueShare`: load the provider's tier
assignment, running a first-time evaluation (and re-reading) when none
exists. -/
def resolveAssignmentState (db : Db) (providerId : String) :
    Option ProviderTierAssignment × Db :=
  match findAssignment db providerId with
  | some a => (some a, db)
  | none =>
      let db1 := (evaluateProvider db providerId).2
      (findAssignment db1 providerId, db1)

/-- `RevenueShareService.calculateRevenueShare`: preview computation of the
share owed for a base revenue.  Rejects non-positive base revenue, resolves
the provider's tier (running a first-time evaluation when no assignment
exists), then applies `share = base × pct ÷ 100` at 8-digit precision and the
optional monthly retention bonus. -/
def calculateRevenueShare (db : Db) (providerId : String) (baseRevenue : ℚ)
    (includeBonus : Bool := false) :
    Except ServiceError (RevenueShareCalculationDto × Db) :=
  if baseRevenue ≤ 0 then
    .error (.badRequest "Base revenue must be positive")
  else
    let state := resolveAssignmentState db providerId
    let db1 := state.2
    let tierLevel := (state.1.map (fun a => a.currentTier)).getD .BRONZE
    match findTierDef db1 tierLevel with
    | none => .error (.notFound "Tier definition not found")
    | some tierDef =>
        let sharePercentage := tierDef.revenueSharePercentage
        let revenueShareAmount := toFixed8 (baseRevenue * sharePercentage / 100)
        let bonus : ℚ × Option BonusType :=
          if includeBonus && decide ((0 : ℚ) < tierDef.monthlyRetentionBonusUsdc) then
            (toFixed8 tierDef.monthlyRetentionBonusUsdc, some .MONTHLY_TOP)
          else
            (0, none)
        let totalPayout := toFixed8 (revenueShareAmount + bonus.1)
        .ok ({ providerId := providerId, tierLevel := tierLevel
               sharePercentage := sharePercentage, baseRevenue := baseRevenue
               revenueShareAmount := revenueShareAmount
               bonusAmount := bonus.1, bonusType := bonus.2
               totalPayout := totalPayout }, db1)

/-- Options object of `processProviderPayout`. -/
structure PayoutOptions where
  includeBonus : Bool := true
  periodYear : Option Nat := none
  periodMonth : Option Nat := none
  bonusOverride : Option (ℚ × BonusType) := none
deriving DecidableEq, Repr

/-- `RevenueShareService.processProviderPayout`: calculate, resolve the
provider's user row (NotFound when absent), apply any bonus override, record
the payout through `recordPayout`, and auto-escalate ELITE/PLATINUM payouts to
PROCESSING (`escalatePayout`). -/
def processProviderPayout (db : Db) (providerId : String) (baseRevenue : ℚ)
    (options : PayoutOptions := {}) :
    Except ServiceError (ProviderRevenuePayout × Db) :=
  match calculateRevenueShare db providerId baseRevenue options.includeBonus with
  | .error e => .error e
  | .ok (cres, db1) =>
      match findUser db1 providerId with
      | none => .error (.notFound "Provider user not found")
      | some user =>
          let bonusAmount := (options.bonusOverride.map (fun o => o.1)).getD cres.bonusAmount
          let bonusType := (options.bonusOverride.map (fun o => some o.2)).getD cres.bonusType
          let totalPayout := toFixed8 (cres.revenueShareAmount + bonusAmount)
          let rec0 := recordPayout db1
            { providerId := providerId, tierLevel := cres.tierLevel
              baseRevenue := baseRevenue, sharePercentage := cres.sharePercentage
              revenueShareAmount := cres.revenueShareAmount
              bonusAmount := bonusAmount, bonusType := bonusType
              totalPayout := totalPayout
              providerWalletAddress := user.walletAddress
              periodYear := options.periodYear, periodMonth := options.periodMonth }
          let payout := rec0.1
          let db2 := rec0.2
          if cres.tierLevel = .ELITE ∨ cres.tierLevel = .PLATINUM then
            let escalated := { payout with status := PayoutStatus.PROCESSING }
            .ok (escalated, savePayout db2 escalated)
          else
            .ok (payout, db2)

/-- `RevenueShareService.awardPerformanceBonus`: record a bonus-only payout
(`baseRevenue = 0`, `revenueShareAmount = 0`, `totalPayout = amount`) at the
provider's current tier (BRONZE when unassigned).  The `reason` argument is
only logged. -/
def awardPerformanceBonus (db : Db) (providerId : String) (bonusAmountUsdc : ℚ)
    (bonusType : BonusType) ( _reason : Option String := none) :
    Except ServiceError (ProviderRevenuePayout × Db) :=
  match findUser db providerId with
  | none => .error (.notFound "Provider not found")
  | some user =>
      let tierLevel :=
        ((findAssignment db providerId).map (fun a => a.currentTier)).getD .BRONZE
      let rec0 := recordPayout db
        { providerId := providerId, tierLevel := tierLevel
          baseRevenue := 0, sharePercentage := 0, revenueShareAmount := 0
          bonusAmount := bonusAmountUsdc, bonusType := some bonusType
          totalPayout := bonusAmountUsdc
          providerWalletAddress := user.walletAddress }
      .ok (rec0.1, rec0.2)

/-- `RevenueShareService.confirmPayout`: transition to COMPLETED, storing the
transaction hash and `paidAt`; a no-op returning the unchanged record when
the payout is already COMPLETED. -/
def confirmPayout (db : Db) (payoutId : Nat) (stellarTxHash : String) :
    Except ServiceError (ProviderRevenuePayout × Db) :=
  match findPayout db payoutId with
  | none => .error (.notFound "Payout not found")
  | some payout =>
      if payout.status = .COMPLETED then
        .ok (payout, db)
      else
        let updated := { payout with
          status := PayoutStatus.COMPLETED
          stellarTxHash := some stellarTxHash
          paidAt := some (db.nowYear, db.nowMonth) }
        .ok (updated, savePayout db updated)

/-- `RevenueShareService.markPayoutFailed`: set status FAILED, store the
reason, increment `retryCount`.  The source performs NO status check before
doing so. -/
def markPayoutFailed (db : Db) (payoutId : Nat) (reason : String) :
    Except ServiceError (ProviderRevenuePayout × Db) :=
  match findPayout db payoutId with
  | none => .error (.notFound "Payout not found")
  | some payout =>
      let updated := { payout with
        status := PayoutStatus.FAILED
        failureReason := some reason
        retryCount := payout.retryCount + 1 }
      .ok (updated, savePayout db updated)

/-- `RevenueShareService.retryFailedPayout`: only FAILED payouts with fewer
than 5 recorded failures may be reset to PENDING (clearing the failure
reason). -/
def retryFailedPayout (db : Db) (payoutId : Nat) :
    Except ServiceError (ProviderRevenuePayout × Db) :=
  match findPayout db payoutId with
  | none => .error (.notFound "Payout not found")
  | some payout =>
      if payout.status ≠ .FAILED then
        .error (.badRequest "Only FAILED payouts can be retried")
      else if 5 ≤ payout.retryCount then
        .error (.badRequest "Payout has exceeded maximum retry attempts (5)")
      else
        let updated := { payout with
          status := PayoutStatus.PENDING
          failureReason := none }
        .ok (updated, savePayout db updated)

/-- The win-streak threshold table, highest first: 20 → 200, 10 → 75, 5 → 25. -/
def streakThresholds : List (Nat × ℚ) := [(20, 200), (10, 75), (5, 25)]

/-- Result shape of `checkAndIssueStreakBonus`. -/
structure StreakBonusResult where
  bonusIssued : Bool
  bonusAmount : ℚ
  streakCount : Nat
deriving DecidableEq, Repr

/-- Is there an existing STREAK payout for this provider created within the
current calendar month (the `Between(startOfMonth, now)` duplicate window)? -/
def hasStreakBonusThisMonth (db : Db) (providerId : String) : Bool :=
  db.payouts.any (fun p =>
    decide (p.providerId = providerId) && decide (p.bonusType = some .STREAK) &&
    decide (p.createdYear = db.nowYear) && decide (p.createdMonth = db.nowMonth))

/-- `RevenueShareService.checkAndIssueStreakBonus`: pick the first threshold
(scanning 20, 10, 5) that the streak meets and exactly divides; skip when a
STREAK bonus already exists this calendar month; otherwise issue it through
`awardPerformanceBonus` with type STREAK. -/
def checkAndIssueStreakBonus (db : Db) (providerId : String) :
    Except ServiceError (StreakBonusResult × Db) :=
  match findStats db providerId with
  | none => .ok ({ bonusIssued := false, bonusAmount := 0, streakCount := 0 }, db)
  | some stats =>
      let streak := stats.streakWins
      match streakThresholds.find?
          (fun t => decide (t.1 ≤ streak) && decide (streak % t.1 = 0)) with
      | none => .ok ({ bonusIssued := false, bonusAmount := 0, streakCount := streak }, db)
      | some hit =>
          if hasStreakBonusThisMonth db providerId then
            .ok ({ bonusIssued := false, bonusAmount := 0, streakCount := streak }, db)
          else
            match awardPerformanceBonus db providerId hit.2 .STREAK with
            | .error e => .error e
            | .ok (_, db1) =>
                .ok ({ bonusIssued := true, bonusAmount := hit.2, streakCount := streak }, db1)

/-- A row of `MonthlyBatchResult.details`. -/
structure BatchDetail where
  providerId : String
  status : String
  amount : ℚ
  reason : Option String
deriving DecidableEq, Repr

/-- Result shape of `processMontlyBatch` (sic — source spelling). -/
structure MonthlyBatchResult where
  processed : Nat
  totalDispatched : ℚ
  successfulPayouts : Nat
  failedPayouts : Nat
  skipped : Nat
  details : List BatchDetail
deriving DecidableEq, Repr

/-- One iteration of the `processMontlyBatch` loop, threading the result
accumulator, the running `Big` dispatched total, and the store. -/
def batchStep (year month : Nat) (acc : MonthlyBatchResult × ℚ × Db)
    (pair : String × ℚ) : MonthlyBatchResult × ℚ × Db :=
  let result := acc.1
  let dispatched := acc.2.1
  let db := acc.2.2
  let providerId := pair.1
  let baseRevenue := pair.2
  let result := { result with processed := result.processed + 1 }
  if baseRevenue ≤ 0 then
    ({ result with
        skipped := result.skipped + 1
        details := result.details ++
          [{ providerId := providerId, status := "skipped", amount := 0
             reason := some "Zero revenue" }] }, dispatched, db)
  else
    match processProviderPayout db providerId baseRevenue
        { includeBonus := true, periodYear := some year, periodMonth := some month } with
    | .ok (payout, db1) =>
        ({ result with
            successfulPayouts := result.successfulPayouts + 1
            details := result.details ++
              [{ providerId := providerId, status := "success"
                 amount := payout.totalPayout, reason := none }] },
         dispatched + payout.totalPayout, db1)
    | .error e =>
        ({ result with
            failedPayouts := result.failedPayouts + 1
            details := result.details ++
              [{ providerId := providerId, status := "failed", amount := 0
                 reason := some e.message }] }, dispatched, db)

/-- `RevenueShareService.processMontlyBatch`: drive a monthly payout run over
a providerId → baseRevenue map, skipping non-positive revenues, converting
per-provider failures into recorded outcomes, and accumulating the dispatched
total (formatted to 8 digits at the end). -/
def processMontlyBatch (db : Db) (year month : Nat) (revenueMap : List (String × ℚ)) :
    MonthlyBatchResult × Db :=
  let final := revenueMap.foldl (batchStep year month)
    ({ processed := 0, totalDispatched := 0, successfulPayouts := 0
       failedPayouts := 0, skipped := 0, details := [] }, 0, db)
  ({ final.1 with totalDispatched := toFixed8 final.2.1 }, final.2.2)

/-- Per-assignment body of the retention round loop: skip providers without a
user row, otherwise record a MONTHLY_TOP payout of the tier's retention bonus. -/
def retentionStep (year month : Nat) (tier : ProviderTierLevel)
    (tierDef : RevenueShareTier) (acc : Nat × ℚ × Db)
    (assignment : ProviderTierAssignment) : Nat × ℚ × Db :=
  let credited := acc.1
  let total := acc.2.1
  let db := acc.2.2
  match findUser db assignment.providerId with
  | none => acc
  | some user =>
      let db1 := (recordPayout db
        { providerId := assignment.providerId, tierLevel := tier
          baseRevenue := 0, sharePercentage := 0, revenueShareAmount := 0
          bonusAmount := tierDef.monthlyRetentionBonusUsdc
          bonusType := some .MONTHLY_TOP
          totalPayout := tierDef.monthlyRetentionBonusUsdc
          providerWalletAddress := user.walletAddress
          periodYear := some year, periodMonth := some month }).2
      (credited + 1, total + tierDef.monthlyRetentionBonusUsdc, db1)

/-- One tier of the retention round loop: skip when the tier definition is
missing or its retention bonus is zero, otherwise credit every assignment
currently in that tier. -/
def runRetentionTier (year month : Nat) (acc : Nat × ℚ × Db)
    (tier : ProviderTierLevel) : Nat × ℚ × Db :=
  let db := acc.2.2
  let assignments := db.assignments.filter (fun a => decide (a.currentTier = tier))
  match findTierDef db tier with
  | none => acc
  | some tierDef =>
      if tierDef.monthlyRetentionBonusUsdc = 0 then acc
      else assignments.foldl (retentionStep year month tier tierDef) acc

/-- `RevenueShareService.runRetentionBonusRound`: for ELITE and PLATINUM with a
non-zero retention bonus, credit every assignment in that tier that has a user
row; returns the credited count and the 8-digit-formatted total. -/
def runRetentionBonusRound (db : Db) (year month : Nat) : (Nat × ℚ) × Db :=
  let final := [ProviderTierLevel.ELITE, ProviderTierLevel.PLATINUM].foldl
    (runRetentionTier year month) (0, 0, db)
  ((final.1, toFixed8 final.2.1), final.2.2)

-- ── Arithmetic lemmas about 8-digit formatting ───────────────────────────────

theorem toFixed8_grid (n : ℤ) :
    toFixed8 ((n : ℚ) / 100000000) = (n : ℚ) / 100000000 := by
  unfold toFixed8
  have h : ((n : ℚ) / 100000000) * 100000000 = (n : ℚ) := by
    field_simp
  rw [h, Int.floor_int_add]
  norm_num

theorem isFixed8_iff (q : ℚ) :
    isFixed8 q ↔ ∃ n : ℤ, q = (n : ℚ) / 100000000 := by
  constructor
  · intro h
    refine ⟨⌊q * 100000000 + 1 / 2⌋, ?_⟩
    unfold isFixed8 toFixed8 at h
    exact h.symm
  · rintro ⟨n, rfl⟩
    exact toFixed8_grid n

theorem isFixed8_toFixed8 (q : ℚ) : isFixed8 (toFixed8 q) := by
  rw [isFixed8_iff]
  exact ⟨⌊q * 100000000 + 1 / 2⌋, rfl⟩

theorem isFixed8_add {a b : ℚ} (ha : isFixed8 a) (hb : isFixed8 b) :
    isFixed8 (a + b) := by
  rw [isFixed8_iff] at ha hb ⊢
  obtain ⟨n, rfl⟩ := ha
  obtain ⟨m, rfl⟩ := hb
  refine ⟨n + m, ?_⟩
  push_cast
  ring

/-- Adding two 8-digit amounts and re-formatting is exact addition. -/
theorem toFixed8_add_eq {a b : ℚ} (ha : isFixed8 a) (hb : isFixed8 b) :
    toFixed8 (a + b) = a + b :=
  isFixed8_add ha hb

theorem isFixed8_intCast (n : ℤ) : isFixed8 (n : ℚ) := by
  rw [isFixed8_iff]
  refine ⟨n * 100000000, ?_⟩
  push_cast
  field_simp

theorem isFixed8_zero : isFixed8 (0 : ℚ) := by
  simpa using isFixed8_intCast 0

theorem toFixed8_zero : toFixed8 (0 : ℚ) = 0 := isFixed8_zero

-- ── State-preservation lemmas ────────────────────────────────────────────────

theorem recordPayout_snd (db : Db) (p : RecordPayoutParams) :
    (recordPayout db p).2 =
      { db with payouts := db.payouts ++ [(recordPayout db p).1]
                nextPayoutId := db.nextPayoutId + 1 } := rfl

@[simp] theorem recordPayout_tiers (db : Db) (p : RecordPayoutParams) :
    (recordPayout db p).2.tiers = db.tiers := rfl

@[simp] theorem recordPayout_tierCache (db : Db) (p : RecordPayoutParams) :
    (recordPayout db p).2.tierCache = db.tierCache := rfl

@[simp] theorem recordPayout_assignments (db : Db) (p : RecordPayoutParams) :
    (recordPayout db p).2.assignments = db.assignments := rfl

@[simp] theorem recordPayout_stats (db : Db) (p : RecordPayoutParams) :
    (recordPayout db p).2.stats = db.stats := rfl

@[simp] theorem recordPayout_users (db : Db) (p : RecordPayoutParams) :
    (recordPayout db p).2.users = db.users := rfl

@[simp] theorem recordPayout_payouts (db : Db) (p : RecordPayoutParams) :
    (recordPayout db p).2.payouts = db.payouts ++ [(recordPayout db p).1] := rfl

@[simp] theorem saveAssignment_tiers (db : Db) (a : ProviderTierAssignment) :
    (saveAssignment db a).tiers = db.tiers := by
  unfold saveAssignment; split <;> rfl

@[simp] theorem saveAssignment_tierCache (db : Db) (a : ProviderTierAssignment) :
    (saveAssignment db a).tierCache = db.tierCache := by
  unfold saveAssignment; split <;> rfl

@[simp] theorem saveAssignment_payouts (db : Db) (a : ProviderTierAssignment) :
    (saveAssignment db a).payouts = db.payouts := by
  unfold saveAssignment; split <;> rfl

@[simp] theorem saveAssignment_stats (db : Db) (a : ProviderTierAssignment) :
    (saveAssignment db a).stats = db.stats := by
  unfold saveAssignment; split <;> rfl

@[simp] theorem saveAssignment_users (db : Db) (a : ProviderTierAssignment) :
    (saveAssignment db a).users = db.users := by
  unfold saveAssignment; split <;> rfl

@[simp] theorem saveAssignment_nextPayoutId (db : Db) (a : ProviderTierAssignment) :
    (saveAssignment db a).nextPayoutId = db.nextPayoutId := by
  unfold saveAssignment; split <;> rfl

@[simp] theorem savePayout_tiers (db : Db) (p : ProviderRevenuePayout) :
    (savePayout db p).tiers = db.tiers := rfl

@[simp] theorem savePayout_tierCache (db : Db) (p : ProviderRevenuePayout) :
    (savePayout db p).tierCache = db.tierCache := rfl

@[simp] theorem savePayout_assignments (db : Db) (p : ProviderRevenuePayout) :
    (savePayout db p).assignments = db.assignments := rfl

@[simp] theorem savePayout_stats (db : Db) (p : ProviderRevenuePayout) :
    (savePayout db p).stats = db.stats := rfl

@[simp] theorem savePayout_users (db : Db) (p : ProviderRevenuePayout) :
    (savePayout db p).users = db.users := rfl

@[simp] theorem savePayout_payouts (db : Db) (p : ProviderRevenuePayout) :
    (savePayout db p).payouts =
      db.payouts.map (fun q => if q.id = p.id then p else q) := rfl

/-- Evaluation never touches the tier catalog, the cache, the stats, the users
or the payout ledger beyond a possible single promotion payout. -/
theorem evaluateProviderWithMetrics_frame (db : Db) (m : ProviderMetrics) :
    (evaluateProviderWithMetrics db m).2.tiers = db.tiers ∧
    (evaluateProviderWithMetrics db m).2.tierCache = db.tierCache ∧
    (evaluateProviderWithMetrics db m).2.stats = db.stats ∧
    (evaluateProviderWithMetrics db m).2.users = db.users := by
  refine ⟨?_, ?_, ?_, ?_⟩ <;>
    (simp only [evaluateProviderWithMetrics]; split <;> simp)

/-- With an empty wallet address the promotion-bonus branch is unreachable:
no payout is recorded and `bonusTriggered` is `false`. -/
theorem evaluateProviderWithMetrics_empty_wallet (db : Db) (m : ProviderMetrics)
    (h : m.walletAddress = "") :
    (evaluateProviderWithMetrics db m).1.bonusTriggered = false ∧
    (evaluateProviderWithMetrics db m).2.payouts = db.payouts ∧
    (evaluateProviderWithMetrics db m).2.nextPayoutId = db.nextPayoutId := by
  unfold evaluateProviderWithMetrics
  simp [h]

/-- `evaluateProvider` always evaluates with an empty wallet address. -/
theorem evaluateProvider_no_payout (db : Db) (providerId : String) :
    (evaluateProvider db providerId).1.bonusTriggered = false ∧
    (evaluateProvider db providerId).2.payouts = db.payouts ∧
    (evaluateProvider db providerId).2.nextPayoutId = db.nextPayoutId := by
  unfold evaluateProvider
  exact evaluateProviderWithMetrics_empty_wallet db _ rfl

theorem evaluateProvider_frame (db : Db) (providerId : String) :
    (evaluateProvider db providerId).2.tiers = db.tiers ∧
    (evaluateProvider db providerId).2.tierCache = db.tierCache ∧
    (evaluateProvider db providerId).2.stats = db.stats ∧
    (evaluateProvider db providerId).2.users = db.users := by
  unfold evaluateProvider
  exact evaluateProviderWithMetrics_frame db _

theorem resolveAssignmentState_frame (db : Db) (providerId : String) :
    (resolveAssignmentState db providerId).2.tiers = db.tiers ∧
    (resolveAssignmentState db providerId).2.users = db.users ∧
    (resolveAssignmentState db providerId).2.payouts = db.payouts ∧
    (resolveAssignmentState db providerId).2.nextPayoutId = db.nextPayoutId := by
  unfold resolveAssignmentState
  split
  · exact ⟨rfl, rfl, rfl, rfl⟩
  · exact ⟨(evaluateProvider_frame db providerId).1,
      (evaluateProvider_frame db providerId).2.2.2,
      (evaluateProvider_no_payout db providerId).2.1,
      (evaluateProvider_no_payout db providerId).2.2⟩

-- ── Concrete fixtures ────────────────────────────────────────────────────────

/-- A provider already assigned to GOLD (fixture for the spec's worked example). -/
def goldAssignment : ProviderTierAssignment :=
  { providerId := "p1", currentTier := .GOLD, previousTier := none
    winRateSnapshot := 70, signalsSnapshot := 60, copiersSnapshot := 60
    reputationSnapshot := 70, promotionBonusPaid := false
    lastEvaluatedYear := 2025, lastEvaluatedMonth := 9 }

/-- A store with the default tier catalog and one GOLD provider `p1`. -/
def goldDb : Db :=
  { tiers := DEFAULT_TIERS, tierCache := DEFAULT_TIERS
    assignments := [goldAssignment], payouts := [], stats := []
    users := [{ id := "p1", walletAddress := "GP1WALLET" }]
    nextPayoutId := 0, nowYear := 2025, nowMonth := 10 }

/-- Expected result of `calculate(p1, "1000", true)` at GOLD (8 %, bonus 20). -/
def goldCalcExpected : RevenueShareCalculationDto :=
  { providerId := "p1", tierLevel := .GOLD, sharePercentage := 8
    baseRevenue := 1000, revenueShareAmount := 80, bonusAmount := 20
    bonusType := some .MONTHLY_TOP, totalPayout := 100 }

-- ── C1 ───────────────────────────────────────────────────────────────────────

/-- C1: `calculateRevenueShare` fails with InvalidArgument
(`BadRequestException`) for every baseRevenue ≤ 0; every successful result has
`revenueShareAmount = toFixed8 (baseRevenue × sharePercentage ÷ 100)` for the
tier definition named by the returned tier level, `bonusAmount` equal to that
tier's (8-digit-formatted) `monthlyRetentionBonusUsdc` with bonus type
MONTHLY_TOP exactly when `includeBonus` is set and the bonus is positive
(and `0.00000000` otherwise), and `totalPayout` equal to the exact sum
`revenueShareAmount + bonusAmount`; in particular a GOLD provider (8 %,
retention bonus 20) on base revenue 1000 with bonus yields 80 / 20 / 100. -/
theorem calculateRevenueShare_correct (db : Db) (pid : String) (base : ℚ)
    (includeBonus : Bool) :
    (base ≤ 0 →
      calculateRevenueShare db pid base includeBonus =
        .error (.badRequest "Base revenue must be positive")) ∧
    (∀ dto db2,
      calculateRevenueShare db pid base includeBonus = .ok (dto, db2) →
      0 < base ∧ dto.baseRevenue = base ∧
      ∃ td, findTierDef db dto.tierLevel = some td ∧
        dto.sharePercentage = td.revenueSharePercentage ∧
        dto.revenueShareAmount = toFixed8 (base * td.revenueSharePercentage / 100) ∧
        (if includeBonus = true ∧ 0 < td.monthlyRetentionBonusUsdc then
          dto.bonusAmount = toFixed8 td.monthlyRetentionBonusUsdc ∧
            dto.bonusType = some .MONTHLY_TOP
         else
          dto.bonusAmount = 0 ∧ dto.bonusType = none) ∧
        dto.totalPayout = dto.revenueShareAmount + dto.bonusAmount) ∧
    calculateRevenueShare goldDb "p1" 1000 true = .ok (goldCalcExpected, goldDb) := by
  refine ⟨?_, ?_, ?_⟩
  · intro hle
    simp only [calculateRevenueShare, if_pos hle]
  · intro dto db2 h
    by_cases hle : base ≤ 0
    · simp only [calculateRevenueShare, if_pos hle] at h
      exact absurd h (by simp)
    · refine ⟨not_le.mp hle, ?_⟩
      simp only [calculateRevenueShare, if_neg hle] at h
      rcases htd : findTierDef (resolveAssignmentState db pid).2
          ((Option.map (fun a => a.currentTier) (resolveAssignmentState db pid).1).getD
            .BRONZE) with - | td
      · rw [htd] at h
        exact absurd h (by simp)
      · rw [htd] at h
        have hdb : (resolveAssignmentState db pid).2.tiers = db.tiers :=
          (resolveAssignmentState_frame db pid).1
        simp only [Except.ok.injEq, Prod.mk.injEq] at h
        obtain ⟨hdto, -⟩ := h
        subst hdto
        refine ⟨rfl, td, ?_, rfl, rfl, ?_, ?_⟩
        · rw [← htd]
          unfold findTierDef
          rw [hdb]
        · by_cases hb : includeBonus = true ∧ 0 < td.monthlyRetentionBonusUsdc
          · rw [if_pos hb]
            have : (includeBonus && decide (0 < td.monthlyRetentionBonusUsdc)) = true := by
              simp [hb.1, hb.2]
            simp [this]
          · rw [if_neg hb]
            have : (includeBonus && decide (0 < td.monthlyRetentionBonusUsdc)) = false := by
              rcases Decidable.not_and_iff_or_not.mp hb with h1 | h2
              · simp [Bool.eq_false_iff.mpr h1]
              · simp [h2]
            simp [this]
        · by_cases hb : (includeBonus && decide (0 < td.monthlyRetentionBonusUsdc)) = true
          · simp only [hb, if_pos]
            exact toFixed8_add_eq (isFixed8_toFixed8 _) (isFixed8_toFixed8 _)
          · simp only [Bool.not_eq_true] at hb
            simp only [hb, Bool.false_eq_true, if_neg, not_false_iff]
            simpa using toFixed8_add_eq (isFixed8_toFixed8 _) isFixed8_zero
  · simp [calculateRevenueShare, resolveAssignmentState, findAssignment, findTierDef,
      goldDb, goldAssignment, goldCalcExpected, DEFAULT_TIERS, List.find?]
    norm_num [toFixed8]

/-- Witness for C1: at base revenue 0 the InvalidArgument branch fires. -/
theorem calculateRevenueShare_correct_witness :
    (0 : ℚ) ≤ 0 ∧
    calculateRevenueShare goldDb "p1" 0 true =
      .error (.badRequest "Base revenue must be positive") :=
  ⟨le_refl 0, (calculateRevenueShare_correct goldDb "p1" 0 true).1 (le_refl 0)⟩

-- ── C10 ──────────────────────────────────────────────────────────────────────

/-- Fold invariant for `evaluateAllProviders`: no step can set
`bonusTriggered` or grow the ledger. -/
theorem evaluateAllProviders_aux (l : List ProviderStats)
    (acc : List TierEvaluationResult × Db) :
    (∀ r ∈ (l.foldl
        (fun acc s =>
          let r := evaluateProvider acc.2 s.providerId
          (acc.1 ++ [r.1], r.2)) acc).1,
      r ∈ acc.1 ∨ r.bonusTriggered = false) ∧
    (l.foldl
        (fun acc s =>
          let r := evaluateProvider acc.2 s.providerId
          (acc.1 ++ [r.1], r.2)) acc).2.payouts = acc.2.payouts := by
  induction l generalizing acc with
  | nil => exact ⟨fun r hr => Or.inl hr, rfl⟩
  | cons s rest ih =>
      simp only [List.foldl_cons]
      refine ⟨fun r hr => ?_, ?_⟩
      · rcases (ih _).1 r hr with hmem | hfalse
        · rcases List.mem_append.mp hmem with hold | hnew
          · exact Or.inl hold
          · refine Or.inr ?_
            rw [List.mem_singleton.mp hnew]
            exact (evaluateProvider_no_payout acc.2 s.providerId).1
        · exact Or.inr hfalse
      · rw [(ih _).2]
        exact (evaluateProvider_no_payout acc.2 s.providerId).2.1

/-- C10: every evaluation that flows through `evaluateProvider` — including
all of `evaluateAllProviders` and the first-time evaluation triggered inside
`calculateRevenueShare` — builds its metrics with an empty wallet address, so
it never records a promotion payout and always reports
`bonusTriggered = false`. -/
theorem evaluateProvider_never_pays_bonus (db : Db) (pid : String) (base : ℚ)
    (includeBonus : Bool) :
    (evaluateProvider db pid).1.bonusTriggered = false ∧
    (evaluateProvider db pid).2.payouts = db.payouts ∧
    (∀ r ∈ (evaluateAllProviders db).1, r.bonusTriggered = false) ∧
    (evaluateAllProviders db).2.payouts = db.payouts ∧
    (∀ dto db2, calculateRevenueShare db pid base includeBonus = .ok (dto, db2) →
      db2.payouts = db.payouts) := by
  refine ⟨(evaluateProvider_no_payout db pid).1,
    (evaluateProvider_no_payout db pid).2.1, ?_, ?_, ?_⟩
  · intro r hr
    rcases (evaluateAllProviders_aux db.stats ([], db)).1 r hr with hmem | hfalse
    · exact absurd hmem (List.not_mem_nil r)
    · exact hfalse
  · exact (evaluateAllProviders_aux db.stats ([], db)).2
  · intro dto db2 h
    by_cases hle : base ≤ 0
    · simp only [calculateRevenueShare, if_pos hle] at h
      exact absurd h (by simp)
    · simp only [calculateRevenueShare, if_neg hle] at h
      rcases htd : findTierDef (resolveAssignmentState db pid).2
          ((Option.map (fun a => a.currentTier) (resolveAssignmentState db pid).1).getD
            .BRONZE) with - | td
      · rw [htd] at h
        exact absurd h (by simp)
      · rw [htd] at h
        simp only [Except.ok.injEq, Prod.mk.injEq] at h
        rw [← h.2]
        exact (resolveAssignmentState_frame db pid).2.2.1

/-- Witness for C10: on the concrete GOLD store, a successful calculation
leaves the ledger untouched. -/
theorem evaluateProvider_never_pays_bonus_witness :
    calculateRevenueShare goldDb "p1" 1000 true = .ok (goldCalcExpected, goldDb) ∧
    goldDb.payouts = goldDb.payouts := by
  have hconc : calculateRevenueShare goldDb "p1" 1000 true =
      .ok (goldCalcExpected, goldDb) := by
    simp [calculateRevenueShare, resolveAssignmentState, findAssignment, findTierDef,
      goldDb, goldAssignment, goldCalcExpected, DEFAULT_TIERS, List.find?]
    norm_num [toFixed8]
  exact ⟨hconc,
    (evaluateProvider_never_pays_bonus goldDb "p1" 1000 true).2.2.2.2
      goldCalcExpected goldDb hconc⟩

-- ── C5 ───────────────────────────────────────────────────────────────────────

/-- C5: for every existing payout, `retryFailedPayout` rejects non-FAILED
payouts with InvalidState, rejects FAILED payouts whose `retryCount` has
reached 5 with LimitExceeded, and otherwise resets the payout to PENDING with
its failure reason cleared. -/
theorem retryFailedPayout_rules (db : Db) (payoutId : Nat)
    (p : ProviderRevenuePayout) (hfind : findPayout db payoutId = some p) :
    (p.status ≠ .FAILED →
      retryFailedPayout db payoutId =
        .error (.badRequest "Only FAILED payouts can be retried")) ∧
    (p.status = .FAILED → 5 ≤ p.retryCount →
      retryFailedPayout db payoutId =
        .error (.badRequest "Payout has exceeded maximum retry attempts (5)")) ∧
    (p.status = .FAILED → p.retryCount < 5 →
      retryFailedPayout db payoutId =
        .ok ({ p with status := .PENDING, failureReason := none },
          savePayout db { p with status := .PENDING, failureReason := none })) := by
  refine ⟨?_, ?_, ?_⟩
  · intro hst
    simp only [retryFailedPayout, hfind, if_pos hst]
  · intro hst hcnt
    have hne : ¬ p.status ≠ PayoutStatus.FAILED := by simp [hst]
    simp only [retryFailedPayout, hfind, if_neg hne, if_pos hcnt]
  · intro hst hcnt
    have hne : ¬ p.status ≠ PayoutStatus.FAILED := by simp [hst]
    simp only [retryFailedPayout, hfind, if_neg hne, if_neg (not_le.mpr hcnt)]

/-- A PENDING payout fixture used by the retry scenario. -/
def retryBase : ProviderRevenuePayout :=
  { id := 7, providerId := "p1", tierLevel := .GOLD, baseRevenue := 100
    sharePercentage := 8, revenueShareAmount := 8, bonusAmount := 0
    bonusType := none, totalPayout := 8, assetCode := "USDC"
    providerWalletAddress := "GP1WALLET", status := .PENDING
    periodYear := 2025, periodMonth := 10, stellarTxHash := none
    failureReason := none, retryCount := 0, paidAt := none
    createdYear := 2025, createdMonth := 10 }

/-- Store holding only `retryBase`. -/
def retryDb : Db :=
  { tiers := DEFAULT_TIERS, tierCache := DEFAULT_TIERS, assignments := []
    payouts := [retryBase], stats := [], users := [], nextPayoutId := 8
    nowYear := 2025, nowMonth := 10 }

/-- The store after `n` consecutive `markPayoutFailed` calls on payout 7. -/
def afterFails : Nat → Db
  | 0 => retryDb
  | n + 1 =>
      match markPayoutFailed (afterFails n) 7 "tx rejected" with
      | .ok r => r.2
      | .error _ => afterFails n

/-- Witness for C5: after failing 5 times the payout carries retryCount = 5
and the 6th retry attempt is refused with LimitExceeded. -/
theorem retryFailedPayout_rules_witness :
    findPayout (afterFails 5) 7 =
      some { retryBase with
               status := .FAILED
               failureReason := some "tx rejected"
               retryCount := 5 } ∧
    retryFailedPayout (afterFails 5) 7 =
      .error (.badRequest "Payout has exceeded maximum retry attempts (5)") := by
  have hfind : findPayout (afterFails 5) 7 =
      some { retryBase with
               status := .FAILED
               failureReason := some "tx rejected"
               retryCount := 5 } := by
    simp [afterFails, markPayoutFailed, retryDb, retryBase, findPayout,
      savePayout, List.find?]
  refine ⟨hfind, (retryFailedPayout_rules (afterFails 5) 7 _ hfind).2.1 rfl ?_⟩
  norm_num [retryBase]

-- ── C4 ───────────────────────────────────────────────────────────────────────

/-- A COMPLETED payout fixture. -/
def completedPayout : ProviderRevenuePayout :=
  { retryBase with
    id := 3
    status := .COMPLETED
    stellarTxHash := some "abc123"
    paidAt := some (2025, 10) }

/-- Store holding only `completedPayout`. -/
def completedDb : Db :=
  { retryDb with payouts := [completedPayout] }

/-- The record produced by `markPayoutFailed` on the COMPLETED payout. -/
def failedFromCompleted : ProviderRevenuePayout :=
  { completedPayout with
    status := .FAILED
    failureReason := some "tx rejected"
    retryCount := completedPayout.retryCount + 1 }

/-- Counterexample to C4: `markPayoutFailed` performs no status check, so a
payout that has reached COMPLETED does transition — to FAILED. -/
theorem completed_payout_can_fail :
    completedPayout.status = .COMPLETED ∧
    markPayoutFailed completedDb 3 "tx rejected" =
      .ok (failedFromCompleted, savePayout completedDb failedFromCompleted) ∧
    failedFromCompleted.status = .FAILED := by
  refine ⟨rfl, ?_, rfl⟩
  simp [markPayoutFailed, completedDb, retryDb, findPayout, completedPayout,
    failedFromCompleted, List.find?]

/-- C4 amended: a COMPLETED payout is returned unchanged by `confirmPayout`
and rejected by `retryFailedPayout`; only FAILED payouts ever move (back) to
PENDING, and the statuses reachable through the three transition operations
are exactly PENDING (retry of a FAILED payout), COMPLETED (confirm) and
FAILED (markPayoutFailed) — but `markPayoutFailed` checks nothing and sends
ANY existing payout, a COMPLETED one included, to FAILED. -/
theorem completed_payout_transitions (db : Db) (payoutId : Nat)
    (txHash reason : String) :
    (∀ p, findPayout db payoutId = some p → p.status = .COMPLETED →
      confirmPayout db payoutId txHash = .ok (p, db)) ∧
    (∀ p, findPayout db payoutId = some p → p.status ≠ .FAILED →
      retryFailedPayout db payoutId =
        .error (.badRequest "Only FAILED payouts can be retried")) ∧
    (∀ r db2, retryFailedPayout db payoutId = .ok (r, db2) →
      r.status = .PENDING ∧
      ∃ p, findPayout db payoutId = some p ∧ p.status = .FAILED) ∧
    (∀ r db2, confirmPayout db payoutId txHash = .ok (r, db2) →
      r.status = .COMPLETED) ∧
    (∀ p, findPayout db payoutId = some p →
      markPayoutFailed db payoutId reason =
        .ok ({ p with
                 status := .FAILED
                 failureReason := some reason
                 retryCount := p.retryCount + 1 },
          savePayout db
            { p with
                status := .FAILED
                failureReason := some reason
                retryCount := p.retryCount + 1 })) := by
  refine ⟨?_, ?_, ?_, ?_, ?_⟩
  · intro p hfind hst
    simp only [confirmPayout, hfind, if_pos hst]
  · intro p hfind hst
    simp only [retryFailedPayout, hfind, if_pos hst]
  · intro r db2 h
    rcases hfind : findPayout db payoutId with - | p
    · simp only [retryFailedPayout, hfind] at h
      exact absurd h (by simp)
    · simp only [retryFailedPayout, hfind] at h
      by_cases hst : p.status ≠ PayoutStatus.FAILED
      · rw [if_pos hst] at h
        exact absurd h (by simp)
      · rw [if_neg hst] at h
        by_cases hcnt : 5 ≤ p.retryCount
        · rw [if_pos hcnt] at h
          exact absurd h (by simp)
        · rw [if_neg hcnt] at h
          simp only [Except.ok.injEq, Prod.mk.injEq] at h
          refine ⟨?_, p, rfl, not_not.mp hst⟩
          rw [← h.1]
  · intro r db2 h
    rcases hfind : findPayout db payoutId with - | p
    · simp only [confirmPayout, hfind] at h
      exact absurd h (by simp)
    · simp only [confirmPayout, hfind] at h
      by_cases hst : p.status = PayoutStatus.COMPLETED
      · rw [if_pos hst] at h
        simp only [Except.ok.injEq, Prod.mk.injEq] at h
        rw [← h.1]
        exact hst
      · rw [if_neg hst] at h
        simp only [Except.ok.injEq, Prod.mk.injEq] at h
        rw [← h.1]
  · intro p hfind
    simp only [markPayoutFailed, hfind]

/-- Witness for C4 (amended): confirming the already-COMPLETED payout 3 is a
no-op, and retrying it is rejected with InvalidState. -/
theorem completed_payout_transitions_witness :
    confirmPayout completedDb 3 "other" = .ok (completedPayout, completedDb) ∧
    retryFailedPayout completedDb 3 =
      .error (.badRequest "Only FAILED payouts can be retried") := by
  have hfind : findPayout completedDb 3 = some completedPayout := by
    simp [findPayout, completedDb, retryDb, completedPayout, List.find?]
  exact ⟨(completed_payout_transitions completedDb 3 "other" "r").1
      completedPayout hfind rfl,
    (completed_payout_transitions completedDb 3 "other" "r").2.1
      completedPayout hfind (by simp [completedPayout, retryBase])⟩

-- ── C7 ───────────────────────────────────────────────────────────────────────

theorem mem_sortTiersDesc (cache : List RevenueShareTier) (t : RevenueShareTier) :
    t ∈ sortTiersDesc cache ↔ t ∈ cache := by
  simp only [sortTiersDesc, TIER_ORDER, List.mem_flatten, List.mem_map]
  constructor
  · rintro ⟨l, ⟨lvl, hlvl, rfl⟩, hmem⟩
    exact (List.mem_filter.mp hmem).1
  · intro hmem
    refine ⟨cache.filter (fun x => decide (x.tierLevel = t.tierLevel)),
      ⟨t.tierLevel, ?_, rfl⟩, List.mem_filter.mpr ⟨hmem, by simp⟩⟩
    cases t.tierLevel <;> simp

/-- A level segment with no match: no cached tier at that level qualifies. -/
theorem segment_none (cache : List RevenueShareTier) (m : ProviderMetrics)
    (lvl : ProviderTierLevel)
    (h : (cache.filter (fun x => decide (x.tierLevel = lvl))).find?
      (fun x => qualifies m x) = none) :
    ∀ u ∈ cache, u.tierLevel = lvl → qualifies m u = false := by
  intro u hu hlvl
  have := List.find?_eq_none.mp h u (List.mem_filter.mpr ⟨hu, by simp [hlvl]⟩)
  simpa using this

/-- A level segment with a match: the hit is a cached, qualifying tier at that
level. -/
theorem segment_some (cache : List RevenueShareTier) (m : ProviderMetrics)
    (lvl : ProviderTierLevel) (t : RevenueShareTier)
    (h : (cache.filter (fun x => decide (x.tierLevel = lvl))).find?
      (fun x => qualifies m x) = some t) :
    t ∈ cache ∧ t.tierLevel = lvl ∧ qualifies m t = true := by
  have hmem := List.mem_filter.mp (List.mem_of_find?_eq_some h)
  exact ⟨hmem.1, by simpa using hmem.2, List.find?_some h⟩

/-- The grouped shape of the descending sort. -/
theorem sortTiersDesc_eq (cache : List RevenueShareTier) :
    sortTiersDesc cache =
      cache.filter (fun x => decide (x.tierLevel = .ELITE)) ++
      (cache.filter (fun x => decide (x.tierLevel = .PLATINUM)) ++
      (cache.filter (fun x => decide (x.tierLevel = .GOLD)) ++
      (cache.filter (fun x => decide (x.tierLevel = .SILVER)) ++
      cache.filter (fun x => decide (x.tierLevel = .BRONZE))))) := by
  simp [sortTiersDesc, TIER_ORDER]

/-- C7: `resolveTierForMetrics` returns the level of a qualifying cached tier
of maximal precedence (the first hit scanning ELITE→BRONZE), or BRONZE when no
cached tier qualifies; on the default catalog it maps all-zero metrics to
BRONZE.  It is a pure function of the cache snapshot and the metrics, so
determinism and freedom from side effects hold by construction. -/
theorem resolveTierForMetrics_spec (cache : List RevenueShareTier)
    (m : ProviderMetrics) (pid wallet : String) :
    ((∃ t ∈ cache, t.tierLevel = resolveTierForMetrics cache m ∧
        qualifies m t = true ∧
        ∀ u ∈ cache, qualifies m u = true →
          tierIndex u.tierLevel ≤ tierIndex (resolveTierForMetrics cache m)) ∨
      (resolveTierForMetrics cache m = .BRONZE ∧
        ∀ u ∈ cache, qualifies m u = false)) ∧
    resolveTierForMetrics DEFAULT_TIERS
      { providerId := pid, winRate := 0, totalSignals := 0, totalCopiers := 0
        reputationScore := 0, walletAddress := wallet } = .BRONZE := by
  constructor
  · unfold resolveTierForMetrics
    rcases h : (sortTiersDesc cache).find? (fun x => qualifies m x) with - | t
    · refine Or.inr ⟨rfl, fun u hu => ?_⟩
      have := List.find?_eq_none.mp h u ((mem_sortTiersDesc cache u).mpr hu)
      simpa using this
    · refine Or.inl ⟨t, (mem_sortTiersDesc cache t).mp
        (List.mem_of_find?_eq_some h), rfl, List.find?_some h, ?_⟩
      rw [sortTiersDesc_eq] at h
      rw [List.find?_append] at h
      intro u hu hq
      rcases hE : (cache.filter (fun x => decide (x.tierLevel = .ELITE))).find?
          (fun x => qualifies m x) with - | tE
      · rw [hE, Option.none_or] at h
        rw [List.find?_append] at h
        rcases hP : (cache.filter (fun x => decide (x.tierLevel = .PLATINUM))).find?
            (fun x => qualifies m x) with - | tP
        · rw [hP, Option.none_or] at h
          rw [List.find?_append] at h
          rcases hG : (cache.filter (fun x => decide (x.tierLevel = .GOLD))).find?
              (fun x => qualifies m x) with - | tG
          · rw [hG, Option.none_or] at h
            rw [List.find?_append] at h
            rcases hS : (cache.filter (fun x => decide (x.tierLevel = .SILVER))).find?
                (fun x => qualifies m x) with - | tS
            · rw [hS, Option.none_or] at h
              have hB := segment_some cache m .BRONZE t h
              rcases hul : u.tierLevel
              · simp [hB.2.1, hul, tierIndex]
              · have := segment_none cache m .SILVER hS u hu hul
                simp [this] at hq
              · have := segment_none cache m .GOLD hG u hu hul
                simp [this] at hq
              · have := segment_none cache m .PLATINUM hP u hu hul
                simp [this] at hq
              · have := segment_none cache m .ELITE hE u hu hul
                simp [this] at hq
            · rw [hS] at h
              replace h : some tS = some t := h
              simp only [Option.some.injEq] at h
              subst h
              have hSt := segment_some cache m .SILVER tS hS
              rcases hul : u.tierLevel
              · simp [hSt.2.1, hul, tierIndex]
              · simp [hSt.2.1, hul, tierIndex]
              · have := segment_none cache m .GOLD hG u hu hul
                simp [this] at hq
              · have := segment_none cache m .PLATINUM hP u hu hul
                simp [this] at hq
              · have := segment_none cache m .ELITE hE u hu hul
                simp [this] at hq
          · rw [hG] at h
            replace h : some tG = some t := h
            simp only [Option.some.injEq] at h
            subst h
            have hGt := segment_some cache m .GOLD tG hG
            rcases hul : u.tierLevel
            · simp [hGt.2.1, hul, tierIndex]
            · simp [hGt.2.1, hul, tierIndex]
            · simp [hGt.2.1, hul, tierIndex]
            · have := segment_none cache m .PLATINUM hP u hu hul
              simp [this] at hq
            · have := segment_none cache m .ELITE hE u hu hul
              simp [this] at hq
        · rw [hP] at h
          replace h : some tP = some t := h
          simp only [Option.some.injEq] at h
          subst h
          have hPt := segment_some cache m .PLATINUM tP hP
          rcases hul : u.tierLevel
          · simp [hPt.2.1, hul, tierIndex]
          · simp [hPt.2.1, hul, tierIndex]
          · simp [hPt.2.1, hul, tierIndex]
          · simp [hPt.2.1, hul, tierIndex]
          · have := segment_none cache m .ELITE hE u hu hul
            simp [this] at hq
      · rw [hE] at h
        replace h : some tE = some t := h
        simp only [Option.some.injEq] at h
        subst h
        have hEt := segment_some cache m .ELITE tE hE
        rcases hul : u.tierLevel <;> simp [hEt.2.1, hul, tierIndex]
  · rfl

/-- Witness for C7: the default catalog maps all-zero metrics to BRONZE. -/
theorem resolveTierForMetrics_spec_witness :
    resolveTierForMetrics DEFAULT_TIERS
      { providerId := "p9", winRate := 0, totalSignals := 0, totalCopiers := 0
        reputationScore := 0, walletAddress := "" } = .BRONZE :=
  (resolveTierForMetrics_spec DEFAULT_TIERS
    { providerId := "p9", winRate := 0, totalSignals := 0, totalCopiers := 0
      reputationScore := 0, walletAddress := "" } "p9" "").2

-- ── C6 ───────────────────────────────────────────────────────────────────────

/-- The spec's selection rule, stated directly: the highest threshold among
{20 → 200, 10 → 75, 5 → 25} that the streak both meets and exactly divides. -/
def specStreakBonus (streak : Nat) : Option ℚ :=
  if 20 ≤ streak ∧ streak % 20 = 0 then some 200
  else if 10 ≤ streak ∧ streak % 10 = 0 then some 75
  else if 5 ≤ streak ∧ streak % 5 = 0 then some 25
  else none

/-- The code's threshold scan refines the spec's selection rule. -/
theorem streak_find_eq (s : Nat) :
    (streakThresholds.find?
      (fun t => decide (t.1 ≤ s) && decide (s % t.1 = 0))).map (fun t => t.2) =
    specStreakBonus s := by
  by_cases h20a : 20 ≤ s <;> by_cases h20b : s % 20 = 0 <;>
    by_cases h10a : 10 ≤ s <;> by_cases h10b : s % 10 = 0 <;>
    by_cases h5a : 5 ≤ s <;> by_cases h5b : s % 5 = 0 <;>
    simp [streakThresholds, specStreakBonus, List.find?,
      h20a, h20b, h10a, h10b, h5a, h5b]

/-- Stats fixture: GOLD provider `p1` with a 10-win streak. -/
def streakStats10 : ProviderStats :=
  { providerId := "p1", winRate := 70, totalSignals := 60, totalCopiers := 60
    reputationScore := 70, streakWins := 10 }

/-- `goldDb` plus the streak-10 stats row. -/
def streakDb : Db := { goldDb with stats := [streakStats10] }

/-- `streakDb` with a 15-win streak instead. -/
def streakDb15 : Db :=
  { goldDb with stats := [{ streakStats10 with streakWins := 15 }] }

/-- The store after the first (issuing) streak check. -/
def streakDbAfter : Db :=
  match checkAndIssueStreakBonus streakDb "p1" with
  | .ok r => r.2
  | .error _ => streakDb

/-- The store after the streak-15 check. -/
def streakDb15After : Db :=
  match checkAndIssueStreakBonus streakDb15 "p1" with
  | .ok r => r.2
  | .error _ => streakDb15

/-- C6: the streak check issues the bonus of the highest threshold the streak
meets and exactly divides, through `awardPerformanceBonus` with type STREAK,
and issues nothing when a STREAK payout already exists in the current calendar
month or no threshold matches; streak 10 issues 75, streak 15 issues 25, and
a second check in the same month issues nothing. -/
theorem checkAndIssueStreakBonus_spec (db : Db) (pid : String) :
    (findStats db pid = none →
      checkAndIssueStreakBonus db pid =
        .ok ({ bonusIssued := false, bonusAmount := 0, streakCount := 0 }, db)) ∧
    (∀ stats, findStats db pid = some stats →
      (specStreakBonus stats.streakWins = none →
        checkAndIssueStreakBonus db pid =
          .ok ({ bonusIssued := false, bonusAmount := 0
                 streakCount := stats.streakWins }, db)) ∧
      (∀ amt, specStreakBonus stats.streakWins = some amt →
        (hasStreakBonusThisMonth db pid = true →
          checkAndIssueStreakBonus db pid =
            .ok ({ bonusIssued := false, bonusAmount := 0
                   streakCount := stats.streakWins }, db)) ∧
        (hasStreakBonusThisMonth db pid = false →
          ∀ u, findUser db pid = some u →
            ∃ p db2, awardPerformanceBonus db pid amt .STREAK = .ok (p, db2) ∧
              p.bonusType = some .STREAK ∧ p.bonusAmount = amt ∧
              p.totalPayout = amt ∧ p.providerId = pid ∧
              p.createdYear = db.nowYear ∧ p.createdMonth = db.nowMonth ∧
              db2.payouts = db.payouts ++ [p] ∧
              checkAndIssueStreakBonus db pid =
                .ok ({ bonusIssued := true, bonusAmount := amt
                       streakCount := stats.streakWins }, db2)))) ∧
    (∃ db2, checkAndIssueStreakBonus streakDb "p1" =
      .ok ({ bonusIssued := true, bonusAmount := 75, streakCount := 10 }, db2)) ∧
    (∃ db2, checkAndIssueStreakBonus streakDb15 "p1" =
      .ok ({ bonusIssued := true, bonusAmount := 25, streakCount := 15 }, db2)) ∧
    checkAndIssueStreakBonus streakDbAfter "p1" =
      .ok ({ bonusIssued := false, bonusAmount := 0, streakCount := 10 },
        streakDbAfter) := by
  refine ⟨?_, ?_, ?_, ?_, ?_⟩
  · intro hstats
    simp only [checkAndIssueStreakBonus, hstats]
  · intro stats hstats
    refine ⟨?_, ?_⟩
    · intro hnone
      have hfind : streakThresholds.find?
          (fun t => decide (t.1 ≤ stats.streakWins) &&
            decide (stats.streakWins % t.1 = 0)) = none := by
        have := streak_find_eq stats.streakWins
        rw [hnone] at this
        exact Option.map_eq_none'.mp this
      simp only [checkAndIssueStreakBonus, hstats, hfind]
    · intro amt hamt
      obtain ⟨hit, hhit, hhit2⟩ : ∃ hit, streakThresholds.find?
          (fun t => decide (t.1 ≤ stats.streakWins) &&
            decide (stats.streakWins % t.1 = 0)) = some hit ∧ hit.2 = amt := by
        have := streak_find_eq stats.streakWins
        rw [hamt] at this
        rcases Option.map_eq_some'.mp this with ⟨hit, h1, h2⟩
        exact ⟨hit, h1, h2⟩
      refine ⟨?_, ?_⟩
      · intro hdup
        simp only [checkAndIssueStreakBonus, hstats, hhit, hdup, if_pos]
      · intro hdup u huser
        subst hhit2
        have haward : awardPerformanceBonus db pid hit.2 .STREAK =
            .ok ((recordPayout db
              { providerId := pid
                tierLevel :=
                  ((findAssignment db pid).map (fun a => a.currentTier)).getD .BRONZE
                baseRevenue := 0, sharePercentage := 0, revenueShareAmount := 0
                bonusAmount := hit.2, bonusType := some .STREAK, totalPayout := hit.2
                providerWalletAddress := u.walletAddress }).1,
              (recordPayout db
              { providerId := pid
                tierLevel :=
                  ((findAssignment db pid).map (fun a => a.currentTier)).getD .BRONZE
                baseRevenue := 0, sharePercentage := 0, revenueShareAmount := 0
                bonusAmount := hit.2, bonusType := some .STREAK, totalPayout := hit.2
                providerWalletAddress := u.walletAddress }).2) := by
          simp only [awardPerformanceBonus, huser]
        refine ⟨_, _, haward, rfl, rfl, rfl, rfl, rfl, rfl,
          recordPayout_payouts db _, ?_⟩
        simp only [checkAndIssueStreakBonus, hstats, hhit, hdup,
          Bool.false_eq_true, if_neg, not_false_iff, awardPerformanceBonus, huser]
  · refine ⟨streakDbAfter, ?_⟩
    simp [streakDbAfter, checkAndIssueStreakBonus, streakDb, goldDb, streakStats10,
      findStats, findUser, findAssignment, goldAssignment, streakThresholds,
      List.find?, hasStreakBonusThisMonth, awardPerformanceBonus, recordPayout]
  · refine ⟨streakDb15After, ?_⟩
    simp [streakDb15After, checkAndIssueStreakBonus, streakDb15, goldDb,
      streakStats10, findStats, findUser, findAssignment, goldAssignment,
      streakThresholds, List.find?, hasStreakBonusThisMonth,
      awardPerformanceBonus, recordPayout]
  · simp [streakDbAfter, checkAndIssueStreakBonus, streakDb, goldDb, streakStats10,
      findStats, findUser, findAssignment, goldAssignment, streakThresholds,
      List.find?, hasStreakBonusThisMonth, awardPerformanceBonus, recordPayout]

/-- Witness for C6: on the streak-10 fixture the hypotheses of the issuing
branch hold and the theorem yields the 75-USDC STREAK payout. -/
theorem checkAndIssueStreakBonus_spec_witness :
    ∃ p db2, awardPerformanceBonus streakDb "p1" 75 .STREAK = .ok (p, db2) ∧
      p.bonusType = some .STREAK ∧ p.bonusAmount = 75 ∧
      p.totalPayout = 75 ∧ p.providerId = "p1" ∧
      p.createdYear = streakDb.nowYear ∧ p.createdMonth = streakDb.nowMonth ∧
      db2.payouts = streakDb.payouts ++ [p] ∧
      checkAndIssueStreakBonus streakDb "p1" =
        .ok ({ bonusIssued := true, bonusAmount := 75, streakCount := 10 }, db2) := by
  have h := ((checkAndIssueStreakBonus_spec streakDb "p1").2.1 streakStats10
    (by simp [findStats, streakDb, goldDb, streakStats10, List.find?])).2 75
    (by norm_num [specStreakBonus, streakStats10])
  exact (h.2 (by simp [hasStreakBonusThisMonth, streakDb, goldDb]))
    { id := "p1", walletAddress := "GP1WALLET" }
    (by simp [findUser, streakDb, goldDb, List.find?])

-- ── C8 ───────────────────────────────────────────────────────────────────────

/-- A successful `calculateRevenueShare` only (possibly) updates assignments:
tiers, users, ledger, id counter and clock are untouched. -/
theorem calculateRevenueShare_ok_frame (db : Db) (pid : String) (base : ℚ)
    (ib : Bool) (dto : RevenueShareCalculationDto) (db1 : Db)
    (h : calculateRevenueShare db pid base ib = .ok (dto, db1)) :
    db1.tiers = db.tiers ∧ db1.users = db.users ∧
    db1.payouts = db.payouts ∧ db1.nextPayoutId = db.nextPayoutId := by
  by_cases hle : base ≤ 0
  · simp only [calculateRevenueShare, if_pos hle] at h
    exact absurd h (by simp)
  · simp only [calculateRevenueShare, if_neg hle] at h
    rcases htd : findTierDef (resolveAssignmentState db pid).2
        ((Option.map (fun a => a.currentTier) (resolveAssignmentState db pid).1).getD
          .BRONZE) with - | td
    · rw [htd] at h
      exact absurd h (by simp)
    · rw [htd] at h
      simp only [Except.ok.injEq, Prod.mk.injEq] at h
      rw [← h.2]
      exact ⟨(resolveAssignmentState_frame db pid).1,
        (resolveAssignmentState_frame db pid).2.1,
        (resolveAssignmentState_frame db pid).2.2.1,
        (resolveAssignmentState_frame db pid).2.2.2⟩

/-- The escalated copy of the appended payout is in the saved ledger. -/
theorem mem_map_escalate (l : List ProviderRevenuePayout)
    (p q : ProviderRevenuePayout) (hid : p.id = q.id) :
    q ∈ (l ++ [p]).map (fun x => if x.id = q.id then q else x) := by
  rw [List.mem_map]
  exact ⟨p, List.mem_append_right _ (List.mem_singleton_self p), by simp [hid]⟩

/-- C8: `processProviderPayout` fails with NotFound when the provider's user
row (the wallet directory entry) is absent; on success it has recorded exactly
one new USDC ledger row, applied any bonus override, and the new payout is
PROCESSING if and only if the provider's tier is ELITE or PLATINUM (lower
tiers stay PENDING). -/
theorem processProviderPayout_spec (db : Db) (pid : String) (base : ℚ)
    (opts : PayoutOptions) :
    (∀ cres db1,
      calculateRevenueShare db pid base opts.includeBonus = .ok (cres, db1) →
      findUser db pid = none →
      processProviderPayout db pid base opts =
        .error (.notFound "Provider user not found")) ∧
    (∀ payout db2, processProviderPayout db pid base opts = .ok (payout, db2) →
      ((payout.tierLevel = .ELITE ∨ payout.tierLevel = .PLATINUM) →
        payout.status = .PROCESSING) ∧
      (¬(payout.tierLevel = .ELITE ∨ payout.tierLevel = .PLATINUM) →
        payout.status = .PENDING) ∧
      (∀ amt ty, opts.bonusOverride = some (amt, ty) →
        payout.bonusAmount = amt ∧ payout.bonusType = some ty) ∧
      payout.assetCode = "USDC" ∧ payout.providerId = pid ∧
      payout ∈ db2.payouts ∧
      db2.payouts.length = db.payouts.length + 1 ∧
      findUser db pid ≠ none) := by
  constructor
  · intro cres db1 hcalc huser
    have husers : db1.users = db.users :=
      (calculateRevenueShare_ok_frame db pid base opts.includeBonus cres db1 hcalc).2.1
    have huser1 : findUser db1 pid = none := by
      unfold findUser
      rw [husers]
      exact huser
    simp only [processProviderPayout, hcalc, huser1]
  · intro payout db2 h
    rcases hcalc : calculateRevenueShare db pid base opts.includeBonus with e | res
    · simp only [processProviderPayout, hcalc] at h
      exact absurd h (by simp)
    · obtain ⟨cres, db1⟩ := res
      have hframe := calculateRevenueShare_ok_frame db pid base opts.includeBonus
        cres db1 hcalc
      simp only [processProviderPayout, hcalc] at h
      rcases huser : findUser db1 pid with - | u
      · simp only [huser] at h
        exact absurd h (by simp)
      · simp only [huser] at h
        have husernf : findUser db pid ≠ none := by
          unfold findUser at huser ⊢
          rw [← hframe.2.1]
          simp [huser]
        by_cases htier : cres.tierLevel = ProviderTierLevel.ELITE ∨
            cres.tierLevel = ProviderTierLevel.PLATINUM
        · rw [if_pos htier] at h
          simp only [Except.ok.injEq, Prod.mk.injEq] at h
          obtain ⟨hp, hdb⟩ := h
          subst hp
          subst hdb
          refine ⟨fun _ => rfl, fun hc => absurd htier hc, ?_, rfl, rfl, ?_, ?_, husernf⟩
          · intro amt ty hov
            simp [hov, recordPayout]
          · simp only [savePayout_payouts, recordPayout_payouts]
            exact mem_map_escalate _ _ _ rfl
          · simp only [savePayout_payouts, List.length_map, recordPayout_payouts,
              List.length_append, List.length_singleton, hframe.2.2.1]
        · rw [if_neg htier] at h
          simp only [Except.ok.injEq, Prod.mk.injEq] at h
          obtain ⟨hp, hdb⟩ := h
          subst hp
          subst hdb
          refine ⟨fun hc => absurd hc htier, fun _ => rfl, ?_, rfl, rfl, ?_, ?_, husernf⟩
          · intro amt ty hov
            simp [hov, recordPayout]
          · simp only [recordPayout_payouts]
            exact List.mem_append_right _ (List.mem_singleton_self _)
          · simp only [recordPayout_payouts, List.length_append,
              List.length_singleton, hframe.2.2.1]

/-- An ELITE provider fixture store. -/
def eliteDb : Db :=
  { goldDb with assignments := [{ goldAssignment with currentTier := .ELITE }] }

/-- The ledger row the ELITE fixture run is expected to create. -/
def elitePayoutExpected : ProviderRevenuePayout :=
  { id := 0, providerId := "p1", tierLevel := .ELITE, baseRevenue := 1000
    sharePercentage := 10, revenueShareAmount := 100, bonusAmount := 100
    bonusType := some .MONTHLY_TOP, totalPayout := 200, assetCode := "USDC"
    providerWalletAddress := "GP1WALLET", status := .PROCESSING
    periodYear := 2025, periodMonth := 10, stellarTxHash := none
    failureReason := none, retryCount := 0, paidAt := none
    createdYear := 2025, createdMonth := 10 }

/-- The store after the ELITE fixture run. -/
def eliteDbAfter : Db :=
  { eliteDb with payouts := [elitePayoutExpected], nextPayoutId := 1 }

/-- Witness for C8: on the ELITE fixture the payout comes back PROCESSING,
and the theorem transfers the escalation rule to the concrete run. -/
theorem processProviderPayout_spec_witness :
    processProviderPayout eliteDb "p1" 1000 {} =
      .ok (elitePayoutExpected, eliteDbAfter) ∧
    elitePayoutExpected.status = .PROCESSING := by
  have hconc : processProviderPayout eliteDb "p1" 1000 {} =
      .ok (elitePayoutExpected, eliteDbAfter) := by
    simp [processProviderPayout, calculateRevenueShare, resolveAssignmentState,
      findAssignment, findTierDef, findUser, eliteDb, eliteDbAfter, goldDb,
      goldAssignment, elitePayoutExpected, DEFAULT_TIERS, List.find?,
      recordPayout, savePayout]
    norm_num [toFixed8]
  exact ⟨hconc,
    ((processProviderPayout_spec eliteDb "p1" 1000 {}).2 elitePayoutExpected
      eliteDbAfter hconc).1 (Or.inl rfl)⟩

-- ── C3 ───────────────────────────────────────────────────────────────────────

/-- Metrics qualifying exactly for SILVER (55/20/10/55 met, GOLD's 62/50/50/65
not met), with a known wallet address. -/
def mSilver : ProviderMetrics :=
  { providerId := "p", winRate := 60, totalSignals := 30, totalCopiers := 15
    reputationScore := 60, walletAddress := "WADDR" }

/-- All-zero metrics (resolve to BRONZE), with the same wallet address. -/
def mZero : ProviderMetrics :=
  { providerId := "p", winRate := 0, totalSignals := 0, totalCopiers := 0
    reputationScore := 0, walletAddress := "WADDR" }

/-- Store with the default catalog and provider `p` assigned to BRONZE,
promotion bonus never paid. -/
def promoDb0 : Db :=
  { tiers := DEFAULT_TIERS, tierCache := DEFAULT_TIERS
    assignments := [{ providerId := "p", currentTier := .BRONZE
                      previousTier := none, winRateSnapshot := 0
                      signalsSnapshot := 0, copiersSnapshot := 0
                      reputationSnapshot := 0, promotionBonusPaid := false
                      lastEvaluatedYear := 2025, lastEvaluatedMonth := 9 }]
    payouts := [], stats := [], users := []
    nextPayoutId := 0, nowYear := 2025, nowMonth := 10 }

/-- After the first evaluation (BRONZE→SILVER promotion, bonus paid). -/
def promoDb1 : Db := (evaluateProviderWithMetrics promoDb0 mSilver).2

/-- After the second evaluation (SILVER→BRONZE demotion). -/
def promoDb2 : Db := (evaluateProviderWithMetrics promoDb1 mZero).2

/-- C3, evaluated at the failing input: the first BRONZE→SILVER promotion pays
the 10-USDC PERFORMANCE bonus and sets `promotionBonusPaid := true`; an
immediate re-evaluation at the same tier pays nothing; but after a demotion to
BRONZE and a re-promotion to SILVER the code pays a SECOND PERFORMANCE bonus,
because `promotionBonusPaid` is written and never read — contradicting the
source comment «Issue promotion bonus when provider moves up and hasn't been
paid yet» and the claim that the flag prevents duplicates. -/
theorem promotion_bonus_paid_twice :
    (evaluateProviderWithMetrics promoDb0 mSilver).1.promoted = true ∧
    (evaluateProviderWithMetrics promoDb0 mSilver).1.bonusTriggered = true ∧
    (findAssignment promoDb1 "p").map (fun a => a.promotionBonusPaid) =
      some true ∧
    (evaluateProviderWithMetrics promoDb1 mSilver).1.bonusTriggered = false ∧
    (evaluateProviderWithMetrics promoDb1 mZero).1.demoted = true ∧
    (findAssignment promoDb2 "p").map (fun a => a.promotionBonusPaid) =
      some true ∧
    (evaluateProviderWithMetrics promoDb2 mSilver).1.promoted = true ∧
    (evaluateProviderWithMetrics promoDb2 mSilver).1.bonusTriggered = true ∧
    ((evaluateProviderWithMetrics promoDb2 mSilver).2.payouts.filter
      (fun p => decide (p.bonusType = some .PERFORMANCE))).length = 2 := by
  decide

-- ── C2 ───────────────────────────────────────────────────────────────────────

/-- A successful calculation returns 8-digit-formatted share and bonus
amounts. -/
theorem calculateRevenueShare_ok_amounts (db : Db) (pid : String) (base : ℚ)
    (ib : Bool) (dto : RevenueShareCalculationDto) (db1 : Db)
    (h : calculateRevenueShare db pid base ib = .ok (dto, db1)) :
    isFixed8 dto.revenueShareAmount ∧ isFixed8 dto.bonusAmount := by
  by_cases hle : base ≤ 0
  · simp only [calculateRevenueShare, if_pos hle] at h
    exact absurd h (by simp)
  · simp only [calculateRevenueShare, if_neg hle] at h
    rcases htd : findTierDef (resolveAssignmentState db pid).2
        ((Option.map (fun a => a.currentTier) (resolveAssignmentState db pid).1).getD
          .BRONZE) with - | td
    · rw [htd] at h
      exact absurd h (by simp)
    · rw [htd] at h
      simp only [Except.ok.injEq, Prod.mk.injEq] at h
      rw [← h.1]
      refine ⟨isFixed8_toFixed8 _, ?_⟩
      by_cases hb : (ib && decide ((0 : ℚ) < td.monthlyRetentionBonusUsdc)) = true
      · simp only [hb, if_pos]
        exact isFixed8_toFixed8 _
      · simp only [Bool.not_eq_true] at hb
        simp only [hb, Bool.false_eq_true, if_neg, not_false_iff]
        exact isFixed8_zero

/-- The bonus-only ledger row the counterexample run creates: `totalPayout`
is stored verbatim, not formatted. -/
def oddBonusPayout : ProviderRevenuePayout :=
  { id := 0, providerId := "p1", tierLevel := .GOLD, baseRevenue := 0
    sharePercentage := 0, revenueShareAmount := 0
    bonusAmount := 123456789 / 1000000000
    bonusType := some .PERFORMANCE, totalPayout := 123456789 / 1000000000
    assetCode := "USDC", providerWalletAddress := "GP1WALLET"
    status := .PENDING, periodYear := 2025, periodMonth := 10
    stellarTxHash := none, failureReason := none, retryCount := 0
    paidAt := none, createdYear := 2025, createdMonth := 10 }

/-- Counterexample to C2 as stated: `awardPerformanceBonus` stores the bonus
amount verbatim as `totalPayout` without the `toFixed(8)` formatting step, so
for a bonus with 9 fractional digits the stored total is NOT the
8-digit-formatted sum of the components. -/
theorem awardPerformanceBonus_total_unformatted :
    awardPerformanceBonus goldDb "p1" (123456789 / 1000000000) .PERFORMANCE =
      .ok (oddBonusPayout,
        { goldDb with payouts := [oddBonusPayout], nextPayoutId := 1 }) ∧
    oddBonusPayout.totalPayout ≠
      toFixed8 (oddBonusPayout.revenueShareAmount + oddBonusPayout.bonusAmount) := by
  constructor
  · simp [awardPerformanceBonus, findUser, findAssignment, goldDb, goldAssignment,
      oddBonusPayout, recordPayout, List.find?]
  · show (123456789 / 1000000000 : ℚ) ≠ toFixed8 (0 + 123456789 / 1000000000)
    unfold toFixed8
    norm_num

/-- The retention fold never touches the tier catalog. -/
theorem retention_foldl_tiers (y mo : Nat) (tier : ProviderTierLevel)
    (td : RevenueShareTier) (l : List ProviderTierAssignment)
    (acc : Nat × ℚ × Db) :
    (l.foldl (retentionStep y mo tier td) acc).2.2.tiers = acc.2.2.tiers := by
  induction l generalizing acc with
  | nil => rfl
  | cons a rest ih =>
      rw [List.foldl_cons, ih]
      unfold retentionStep
      rcases hu : findUser acc.2.2 a.providerId with - | u
      · simp only [hu]
      · simp only [hu, recordPayout_tiers]

/-- Fold invariant for the retention round: every ledger row is either
pre-existing or a well-formed bonus-only row. -/
theorem retention_foldl_inv (y mo : Nat) (tier : ProviderTierLevel)
    (td : RevenueShareTier) (htd : isFixed8 td.monthlyRetentionBonusUsdc)
    (base : List ProviderRevenuePayout)
    (l : List ProviderTierAssignment) (acc : Nat × ℚ × Db)
    (hacc : ∀ p ∈ acc.2.2.payouts, p ∈ base ∨
      (p.totalPayout = p.revenueShareAmount + p.bonusAmount ∧
        isFixed8 p.totalPayout)) :
    ∀ p ∈ (l.foldl (retentionStep y mo tier td) acc).2.2.payouts, p ∈ base ∨
      (p.totalPayout = p.revenueShareAmount + p.bonusAmount ∧
        isFixed8 p.totalPayout) := by
  induction l generalizing acc with
  | nil => exact hacc
  | cons a rest ih =>
      refine ih _ ?_
      intro p hp
      unfold retentionStep at hp
      rcases hu : findUser acc.2.2 a.providerId with - | u
      · simp only [hu] at hp
        exact hacc p hp
      · simp only [hu, recordPayout_payouts, List.mem_append,
          List.mem_singleton] at hp
        rcases hp with hold | hnew
        · exact hacc p hold
        · refine Or.inr ?_
          subst hnew
          exact ⟨(zero_add _).symm, htd⟩

/-- C2, amended: every payout row created by `processProviderPayout`,
`awardPerformanceBonus`, the promotion-bonus path of evaluation, or
`runRetentionBonusRound` stores `totalPayout` equal to the exact decimal sum
of its `revenueShareAmount` and `bonusAmount` components — representable in 8
fractional digits — PROVIDED every bonus amount supplied (override amount,
bonus argument, configured tier bonus) itself has at most 8 fractional
digits.  Only `processProviderPayout` actually applies the `toFixed(8)`
formatting; the three bonus-only paths store the amount verbatim. -/
theorem payout_total_is_component_sum (db : Db) (pid : String) (base : ℚ)
    (opts : PayoutOptions) (amtIn : ℚ) (ty : BonusType) (m : ProviderMetrics)
    (y mo : Nat) :
    ((∀ amt t2, opts.bonusOverride = some (amt, t2) → isFixed8 amt) →
      ∀ payout db2, processProviderPayout db pid base opts = .ok (payout, db2) →
        payout.totalPayout = payout.revenueShareAmount + payout.bonusAmount ∧
        isFixed8 payout.totalPayout) ∧
    (isFixed8 amtIn →
      ∀ payout db2, awardPerformanceBonus db pid amtIn ty = .ok (payout, db2) →
        payout.totalPayout = payout.revenueShareAmount + payout.bonusAmount ∧
        isFixed8 payout.totalPayout) ∧
    ((∀ td ∈ db.tierCache, isFixed8 td.performanceBonusUsdc) →
      ∀ p ∈ (evaluateProviderWithMetrics db m).2.payouts, p ∈ db.payouts ∨
        (p.totalPayout = p.revenueShareAmount + p.bonusAmount ∧
          isFixed8 p.totalPayout)) ∧
    ((∀ td ∈ db.tiers, isFixed8 td.monthlyRetentionBonusUsdc) →
      ∀ p ∈ (runRetentionBonusRound db y mo).2.payouts, p ∈ db.payouts ∨
        (p.totalPayout = p.revenueShareAmount + p.bonusAmount ∧
          isFixed8 p.totalPayout)) := by
  refine ⟨?_, ?_, ?_, ?_⟩
  · intro hov payout db2 h
    rcases hcalc : calculateRevenueShare db pid base opts.includeBonus with e | res
    · simp only [processProviderPayout, hcalc] at h
      exact absurd h (by simp)
    · obtain ⟨cres, db1⟩ := res
      have hamounts := calculateRevenueShare_ok_amounts db pid base
        opts.includeBonus cres db1 hcalc
      have hbfix : isFixed8 ((Option.map (fun o => o.1) opts.bonusOverride).getD
          cres.bonusAmount) := by
        rcases ho : opts.bonusOverride with - | o
        · simpa using hamounts.2
        · simpa using hov o.1 o.2 (by rw [ho])
      simp only [processProviderPayout, hcalc] at h
      rcases huser : findUser db1 pid with - | u
      · simp only [huser] at h
        exact absurd h (by simp)
      · simp only [huser] at h
        by_cases htier : cres.tierLevel = ProviderTierLevel.ELITE ∨
            cres.tierLevel = ProviderTierLevel.PLATINUM
        · rw [if_pos htier] at h
          simp only [Except.ok.injEq, Prod.mk.injEq] at h
          rw [← h.1]
          exact ⟨toFixed8_add_eq hamounts.1 hbfix, isFixed8_toFixed8 _⟩
        · rw [if_neg htier] at h
          simp only [Except.ok.injEq, Prod.mk.injEq] at h
          rw [← h.1]
          exact ⟨toFixed8_add_eq hamounts.1 hbfix, isFixed8_toFixed8 _⟩
  · intro hfix payout db2 h
    rcases huser : findUser db pid with - | u
    · simp only [awardPerformanceBonus, huser] at h
      exact absurd h (by simp)
    · simp only [awardPerformanceBonus, huser, Except.ok.injEq,
        Prod.mk.injEq] at h
      rw [← h.1]
      exact ⟨(zero_add _).symm, hfix⟩
  · intro hcache p hp
    revert hp
    simp only [evaluateProviderWithMetrics]
    split
    · rename_i td heq
      intro hp
      simp only [saveAssignment_payouts, recordPayout_payouts,
        List.mem_append, List.mem_singleton] at hp
      rcases hp with hold | hnew
      · exact Or.inl hold
      · refine Or.inr ?_
        subst hnew
        have htd : td ∈ db.tierCache := by
          by_cases hc : (Option.any
              (fun a => decide (tierIndex a.currentTier <
                tierIndex (resolveTierForMetrics db.tierCache m)))
              (findAssignment db m.providerId) &&
              decide (m.walletAddress ≠ "")) = true
          · rw [if_pos hc] at heq
            rcases hfd : db.tierCache.find?
                (fun t => decide (t.tierLevel =
                  resolveTierForMetrics db.tierCache m)) with - | td2
            · simp only [hfd] at heq
              exact absurd heq (by simp)
            · simp only [hfd] at heq
              by_cases hpos : (decide
                  ((0 : ℚ) < td2.performanceBonusUsdc)) = true
              · rw [if_pos hpos] at heq
                simp only [Option.some.injEq] at heq
                subst heq
                exact List.mem_of_find?_eq_some hfd
              · rw [if_neg hpos] at heq
                exact absurd heq (by simp)
          · rw [if_neg hc] at heq
            exact absurd heq (by simp)
        exact ⟨(zero_add _).symm, hcache td htd⟩
    · intro hp
      simp only [saveAssignment_payouts] at hp
      exact Or.inl hp
  · intro htiers
    have step : ∀ (tier : ProviderTierLevel) (acc : Nat × ℚ × Db),
        (∀ p ∈ acc.2.2.payouts, p ∈ db.payouts ∨
          (p.totalPayout = p.revenueShareAmount + p.bonusAmount ∧
            isFixed8 p.totalPayout)) →
        acc.2.2.tiers = db.tiers →
        ∀ p ∈ (runRetentionTier y mo acc tier).2.2.payouts, p ∈ db.payouts ∨
          (p.totalPayout = p.revenueShareAmount + p.bonusAmount ∧
            isFixed8 p.totalPayout) := by
      intro tier acc hacc htr
      unfold runRetentionTier
      rcases hfd : findTierDef acc.2.2 tier with - | tierDef
      · simpa only [hfd] using hacc
      · simp only [hfd]
        by_cases hz : tierDef.monthlyRetentionBonusUsdc = 0
        · simpa only [if_pos hz] using hacc
        · rw [if_neg hz]
          have htdmem : tierDef ∈ db.tiers := by
            rw [← htr]
            exact List.mem_of_find?_eq_some hfd
          exact retention_foldl_inv y mo tier tierDef
            (htiers tierDef htdmem) db.payouts _ _ hacc
    have stepTiers : ∀ (tier : ProviderTierLevel) (acc : Nat × ℚ × Db),
        (runRetentionTier y mo acc tier).2.2.tiers = acc.2.2.tiers := by
      intro tier acc
      unfold runRetentionTier
      rcases hfd : findTierDef acc.2.2 tier with - | tierDef
      · simp only [hfd]
      · simp only [hfd]
        by_cases hz : tierDef.monthlyRetentionBonusUsdc = 0
        · simp only [if_pos hz]
        · rw [if_neg hz]
          exact retention_foldl_tiers y mo tier tierDef _ acc
    intro p hp
    unfold runRetentionBonusRound at hp
    simp only [List.foldl_cons, List.foldl_nil] at hp
    refine step .PLATINUM _ (step .ELITE (0, 0, db) (fun q hq => Or.inl hq) rfl)
      ?_ p hp
    rw [stepTiers]

/-- The well-formed 75-USDC bonus row of the C2 witness run. -/
def bonus75Payout : ProviderRevenuePayout :=
  { id := 0, providerId := "p1", tierLevel := .GOLD, baseRevenue := 0
    sharePercentage := 0, revenueShareAmount := 0, bonusAmount := 75
    bonusType := some .PERFORMANCE, totalPayout := 75, assetCode := "USDC"
    providerWalletAddress := "GP1WALLET", status := .PENDING
    periodYear := 2025, periodMonth := 10, stellarTxHash := none
    failureReason := none, retryCount := 0, paidAt := none
    createdYear := 2025, createdMonth := 10 }

/-- Witness for C2 (amended): a 75-USDC performance bonus (8-digit
representable) yields a row whose total is the exact component sum. -/
theorem payout_total_is_component_sum_witness :
    isFixed8 (75 : ℚ) ∧
    awardPerformanceBonus goldDb "p1" 75 .PERFORMANCE =
      .ok (bonus75Payout,
        { goldDb with payouts := [bonus75Payout], nextPayoutId := 1 }) ∧
    bonus75Payout.totalPayout =
      bonus75Payout.revenueShareAmount + bonus75Payout.bonusAmount ∧
    isFixed8 bonus75Payout.totalPayout := by
  have h75 : isFixed8 (75 : ℚ) := by
    rw [isFixed8_iff]
    exact ⟨7500000000, by norm_num⟩
  have hconc : awardPerformanceBonus goldDb "p1" 75 .PERFORMANCE =
      .ok (bonus75Payout,
        { goldDb with payouts := [bonus75Payout], nextPayoutId := 1 }) := by
    simp [awardPerformanceBonus, findUser, findAssignment, goldDb,
      goldAssignment, bonus75Payout, recordPayout, List.find?]
  exact ⟨h75, hconc,
    (payout_total_is_component_sum goldDb "p1" 0 {} 75 .PERFORMANCE mZero 0 0).2.1
      h75 bonus75Payout _ hconc⟩

-- ── C9 ───────────────────────────────────────────────────────────────────────

/-- What a detail row must look like for its input pair: a zero-revenue skip,
a success carrying the payout's total, or a failure carrying the thrown
error's message (for the store the batch had reached at that point). -/
def detailMatches (year month : Nat) (pair : String × ℚ) (d : BatchDetail) : Prop :=
  d.providerId = pair.1 ∧
  ((pair.2 ≤ 0 ∧ d.status = "skipped" ∧ d.amount = 0 ∧
      d.reason = some "Zero revenue") ∨
   (0 < pair.2 ∧
     ((∃ dbi p dbo, processProviderPayout dbi pair.1 pair.2
          { includeBonus := true, periodYear := some year
            periodMonth := some month } = .ok (p, dbo) ∧
        d.status = "success" ∧ d.amount = p.totalPayout ∧ d.reason = none) ∨
      (∃ dbi e, processProviderPayout dbi pair.1 pair.2
          { includeBonus := true, periodYear := some year
            periodMonth := some month } = .error e ∧
        d.status = "failed" ∧ d.amount = 0 ∧ d.reason = some e.message))))

/-- Sum of the amounts of the success rows. -/
def sumSuccess (ds : List BatchDetail) : ℚ :=
  ((ds.filter (fun d => decide (d.status = "success"))).map (fun d => d.amount)).sum

theorem sumSuccess_nil : sumSuccess [] = 0 := rfl

theorem sumSuccess_cons (d : BatchDetail) (ds : List BatchDetail) :
    sumSuccess (d :: ds) =
      (if d.status = "success" then d.amount else 0) + sumSuccess ds := by
  by_cases hs : d.status = "success"
  · simp [sumSuccess, List.filter_cons, hs]
  · simp [sumSuccess, List.filter_cons, hs]

/-- `batchStep` on a non-positive revenue: record a skip. -/
theorem batchStep_skip (year month : Nat) (acc : MonthlyBatchResult × ℚ × Db)
    (pair : String × ℚ) (h : pair.2 ≤ 0) :
    batchStep year month acc pair =
      ({ acc.1 with
          processed := acc.1.processed + 1
          skipped := acc.1.skipped + 1
          details := acc.1.details ++
            [{ providerId := pair.1, status := "skipped", amount := 0
               reason := some "Zero revenue" }] }, acc.2.1, acc.2.2) := by
  simp [batchStep, if_pos h]

/-- `batchStep` on a positive revenue whose payout succeeds. -/
theorem batchStep_success (year month : Nat) (acc : MonthlyBatchResult × ℚ × Db)
    (pair : String × ℚ) (h : ¬ pair.2 ≤ 0)
    (p : ProviderRevenuePayout) (dbo : Db)
    (hok : processProviderPayout acc.2.2 pair.1 pair.2
      { includeBonus := true, periodYear := some year
        periodMonth := some month } = .ok (p, dbo)) :
    batchStep year month acc pair =
      ({ acc.1 with
          processed := acc.1.processed + 1
          successfulPayouts := acc.1.successfulPayouts + 1
          details := acc.1.details ++
            [{ providerId := pair.1, status := "success"
               amount := p.totalPayout, reason := none }] },
        acc.2.1 + p.totalPayout, dbo) := by
  simp [batchStep, if_neg h, hok]

/-- `batchStep` on a positive revenue whose payout throws: the error is
converted into a recorded outcome. -/
theorem batchStep_failed (year month : Nat) (acc : MonthlyBatchResult × ℚ × Db)
    (pair : String × ℚ) (h : ¬ pair.2 ≤ 0) (e : ServiceError)
    (herr : processProviderPayout acc.2.2 pair.1 pair.2
      { includeBonus := true, periodYear := some year
        periodMonth := some month } = .error e) :
    batchStep year month acc pair =
      ({ acc.1 with
          processed := acc.1.processed + 1
          failedPayouts := acc.1.failedPayouts + 1
          details := acc.1.details ++
            [{ providerId := pair.1, status := "failed", amount := 0
               reason := some e.message }] }, acc.2.1, acc.2.2) := by
  simp [batchStep, if_neg h, herr]

/-- Fold invariant of the monthly batch: counters tally the outcomes, details
align one-to-one with the inputs, and the running total accumulates exactly
the success amounts.  In particular the fold is total: one provider's failure
never prevents the remaining pairs from being processed. -/
theorem batch_foldl_inv (year month : Nat) (l : List (String × ℚ))
    (acc : MonthlyBatchResult × ℚ × Db) :
    (l.foldl (batchStep year month) acc).1.processed =
      acc.1.processed + l.length ∧
    (l.foldl (batchStep year month) acc).1.skipped =
      acc.1.skipped + (l.filter (fun pr => decide (pr.2 ≤ 0))).length ∧
    (l.foldl (batchStep year month) acc).1.successfulPayouts +
        (l.foldl (batchStep year month) acc).1.failedPayouts =
      acc.1.successfulPayouts + acc.1.failedPayouts +
        (l.filter (fun pr => decide (0 < pr.2))).length ∧
    ∃ nds,
      (l.foldl (batchStep year month) acc).1.details = acc.1.details ++ nds ∧
      List.Forall₂ (detailMatches year month) l nds ∧
      (l.foldl (batchStep year month) acc).2.1 = acc.2.1 + sumSuccess nds := by
  induction l generalizing acc with
  | nil =>
      exact ⟨rfl, by simp, by simp, [], by simp, List.Forall₂.nil, by
        simp [sumSuccess_nil]⟩
  | cons pair rest ih =>
      simp only [List.foldl_cons]
      by_cases hle : pair.2 ≤ 0
      · obtain ⟨hp, hs, hsf, nds, hdet, hfa, hsum⟩ :=
          ih (batchStep year month acc pair)
        rw [batchStep_skip year month acc pair hle] at hp hs hsf hdet hsum ⊢
        refine ⟨?_, ?_, ?_,
          { providerId := pair.1, status := "skipped", amount := 0
            reason := some "Zero revenue" } :: nds, ?_, ?_, ?_⟩
        · rw [hp]
          dsimp only
          simp only [List.length_cons]
          omega
        · rw [hs]
          dsimp only
          simp [List.filter_cons, hle]
          omega
        · rw [hsf]
          dsimp only
          have hnot : ¬ (0 : ℚ) < pair.2 := not_lt.mpr hle
          simp [List.filter_cons, hnot]
        · rw [hdet]
          dsimp only
          rw [List.append_assoc]
          rfl
        · exact List.Forall₂.cons ⟨rfl, Or.inl ⟨hle, rfl, rfl, rfl⟩⟩ hfa
        · rw [hsum, sumSuccess_cons]
          dsimp only
          simp
      · have hpos : (0 : ℚ) < pair.2 := not_le.mp hle
        rcases hstep : processProviderPayout acc.2.2 pair.1 pair.2
            { includeBonus := true, periodYear := some year
              periodMonth := some month } with e | res
        · obtain ⟨hp, hs, hsf, nds, hdet, hfa, hsum⟩ :=
            ih (batchStep year month acc pair)
          rw [batchStep_failed year month acc pair hle e hstep]
            at hp hs hsf hdet hsum ⊢
          refine ⟨?_, ?_, ?_,
            { providerId := pair.1, status := "failed", amount := 0
              reason := some e.message } :: nds, ?_, ?_, ?_⟩
          · rw [hp]
            dsimp only
            simp only [List.length_cons]
            omega
          · rw [hs]
            dsimp only
            simp [List.filter_cons, hle]
          · rw [hsf]
            dsimp only
            simp [List.filter_cons, hpos]
            omega
          · rw [hdet]
            dsimp only
            rw [List.append_assoc]
            rfl
          · exact List.Forall₂.cons
              ⟨rfl, Or.inr ⟨hpos, Or.inr ⟨acc.2.2, e, hstep, rfl, rfl, rfl⟩⟩⟩ hfa
          · rw [hsum, sumSuccess_cons]
            dsimp only
            simp
        · obtain ⟨p, dbo⟩ := res
          obtain ⟨hp, hs, hsf, nds, hdet, hfa, hsum⟩ :=
            ih (batchStep year month acc pair)
          rw [batchStep_success year month acc pair hle p dbo hstep]
            at hp hs hsf hdet hsum ⊢
          refine ⟨?_, ?_, ?_,
            { providerId := pair.1, status := "success"
              amount := p.totalPayout, reason := none } :: nds, ?_, ?_, ?_⟩
          · rw [hp]
            dsimp only
            simp only [List.length_cons]
            omega
          · rw [hs]
            dsimp only
            simp [List.filter_cons, hle]
          · rw [hsf]
            dsimp only
            simp [List.filter_cons, hpos]
            omega
          · rw [hdet]
            dsimp only
            rw [List.append_assoc]
            rfl
          · exact List.Forall₂.cons
              ⟨rfl, Or.inr ⟨hpos, Or.inl ⟨acc.2.2, p, dbo, hstep, rfl, rfl, rfl⟩⟩⟩ hfa
          · rw [hsum, sumSuccess_cons]
            dsimp only
            simp
            ring

/-- C9: the monthly batch records a skip for every non-positive revenue, a
failure outcome carrying the thrown error's message for every payout that
throws (never aborting the rest), a success outcome per successful payout —
accumulating exactly those payouts' totals into `totalDispatched` — and, on
the worked example (one zero-revenue and one positive-revenue GOLD provider),
yields skipped = 1, successfulPayouts = 1 and totalDispatched = 100 = that
single payout's totalPayout. -/
theorem processMontlyBatch_spec (db : Db) (year month : Nat)
    (revenueMap : List (String × ℚ)) :
    (processMontlyBatch db year month revenueMap).1.processed =
      revenueMap.length ∧
    (processMontlyBatch db year month revenueMap).1.skipped =
      (revenueMap.filter (fun pr => decide (pr.2 ≤ 0))).length ∧
    (processMontlyBatch db year month revenueMap).1.successfulPayouts +
        (processMontlyBatch db year month revenueMap).1.failedPayouts =
      (revenueMap.filter (fun pr => decide (0 < pr.2))).length ∧
    List.Forall₂ (detailMatches year month) revenueMap
      (processMontlyBatch db year month revenueMap).1.details ∧
    (processMontlyBatch db year month revenueMap).1.totalDispatched =
      toFixed8 (sumSuccess (processMontlyBatch db year month revenueMap).1.details) ∧
    (processMontlyBatch goldDb 2025 10 [("pz", 0), ("p1", 1000)]).1.skipped = 1 ∧
    (processMontlyBatch goldDb 2025 10 [("pz", 0), ("p1", 1000)]).1.successfulPayouts = 1 ∧
    (processMontlyBatch goldDb 2025 10 [("pz", 0), ("p1", 1000)]).1.failedPayouts = 0 ∧
    (processMontlyBatch goldDb 2025 10 [("pz", 0), ("p1", 1000)]).1.details =
      [{ providerId := "pz", status := "skipped", amount := 0
         reason := some "Zero revenue" },
       { providerId := "p1", status := "success", amount := 100, reason := none }] ∧
    (processMontlyBatch goldDb 2025 10 [("pz", 0), ("p1", 1000)]).1.totalDispatched = 100 := by
  obtain ⟨hp, hs, hsf, nds, hdet, hfa, hsum⟩ :=
    batch_foldl_inv year month revenueMap
      ({ processed := 0, totalDispatched := 0, successfulPayouts := 0
         failedPayouts := 0, skipped := 0, details := [] }, 0, db)
  have hres : (processMontlyBatch db year month revenueMap).1 =
      { (revenueMap.foldl (batchStep year month)
          ({ processed := 0, totalDispatched := 0, successfulPayouts := 0
             failedPayouts := 0, skipped := 0, details := [] }, 0, db)).1 with
        totalDispatched := toFixed8 (revenueMap.foldl (batchStep year month)
          ({ processed := 0, totalDispatched := 0, successfulPayouts := 0
             failedPayouts := 0, skipped := 0, details := [] }, 0, db)).2.1 } := rfl
  have hndseq : (processMontlyBatch db year month revenueMap).1.details = nds := by
    rw [hres]
    simpa using hdet
  refine ⟨?_, ?_, ?_, ?_, ?_, ?_, ?_, ?_, ?_, ?_⟩
  · rw [hres]
    simpa using hp
  · rw [hres]
    simpa using hs
  · rw [hres]
    simpa using hsf
  · rw [hndseq]
    exact hfa
  · rw [hndseq, hres]
    simp only [hsum]
    norm_num
  · try norm_num [processMontlyBatch, batchStep, processProviderPayout,
      calculateRevenueShare, resolveAssignmentState, findAssignment,
      findTierDef, findUser, goldDb, goldAssignment, DEFAULT_TIERS,
      List.find?, recordPayout, savePayout, toFixed8]
    try simp [processMontlyBatch, batchStep, processProviderPayout,
      calculateRevenueShare, resolveAssignmentState, findAssignment,
      findTierDef, findUser, goldDb, goldAssignment, DEFAULT_TIERS,
      List.find?, recordPayout, savePayout]
    try norm_num [toFixed8]
    try simp [processMontlyBatch, batchStep, processProviderPayout,
      calculateRevenueShare, resolveAssignmentState, findAssignment,
      findTierDef, findUser, goldDb, goldAssignment, DEFAULT_TIERS,
      List.find?, recordPayout, savePayout]
    try norm_num [toFixed8]
  · try norm_num [processMontlyBatch, batchStep, processProviderPayout,
      calculateRevenueShare, resolveAssignmentState, findAssignment,
      findTierDef, findUser, goldDb, goldAssignment, DEFAULT_TIERS,
      List.find?, recordPayout, savePayout, toFixed8]
    try simp [processMontlyBatch, batchStep, processProviderPayout,
      calculateRevenueShare, resolveAssignmentState, findAssignment,
      findTierDef, findUser, goldDb, goldAssignment, DEFAULT_TIERS,
      List.find?, recordPayout, savePayout]
    try norm_num [toFixed8]
    try simp [processMontlyBatch, batchStep, processProviderPayout,
      calculateRevenueShare, resolveAssignmentState, findAssignment,
      findTierDef, findUser, goldDb, goldAssignment, DEFAULT_TIERS,
      List.find?, recordPayout, savePayout]
    try norm_num [toFixed8]
  · try norm_num [processMontlyBatch, batchStep, processProviderPayout,
      calculateRevenueShare, resolveAssignmentState, findAssignment,
      findTierDef, findUser, goldDb, goldAssignment, DEFAULT_TIERS,
      List.find?, recordPayout, savePayout, toFixed8]
    try simp [processMontlyBatch, batchStep, processProviderPayout,
      calculateRevenueShare, resolveAssignmentState, findAssignment,
      findTierDef, findUser, goldDb, goldAssignment, DEFAULT_TIERS,
      List.find?, recordPayout, savePayout]
    try norm_num [toFixed8]
    try simp [processMontlyBatch, batchStep, processProviderPayout,
      calculateRevenueShare, resolveAssignmentState, findAssignment,
      findTierDef, findUser, goldDb, goldAssignment, DEFAULT_TIERS,
      List.find?, recordPayout, savePayout]
    try norm_num [toFixed8]
  · try norm_num [processMontlyBatch, batchStep, processProviderPayout,
      calculateRevenueShare, resolveAssignmentState, findAssignment,
      findTierDef, findUser, goldDb, goldAssignment, DEFAULT_TIERS,
      List.find?, recordPayout, savePayout, toFixed8]
    try simp [processMontlyBatch, batchStep, processProviderPayout,
      calculateRevenueShare, resolveAssignmentState, findAssignment,
      findTierDef, findUser, goldDb, goldAssignment, DEFAULT_TIERS,
      List.find?, recordPayout, savePayout]
    try norm_num [toFixed8]
    try simp [processMontlyBatch, batchStep, processProviderPayout,
      calculateRevenueShare, resolveAssignmentState, findAssignment,
      findTierDef, findUser, goldDb, goldAssignment, DEFAULT_TIERS,
      List.find?, recordPayout, savePayout]
    try norm_num [toFixed8]
  · try norm_num [processMontlyBatch, batchStep, processProviderPayout,
      calculateRevenueShare, resolveAssignmentState, findAssignment,
      findTierDef, findUser, goldDb, goldAssignment, DEFAULT_TIERS,
      List.find?, recordPayout, savePayout, toFixed8]
    try simp [processMontlyBatch, batchStep, processProviderPayout,
      calculateRevenueShare, resolveAssignmentState, findAssignment,
      findTierDef, findUser, goldDb, goldAssignment, DEFAULT_TIERS,
      List.find?, recordPayout, savePayout]
    try norm_num [toFixed8]
    try simp [processMontlyBatch, batchStep, processProviderPayout,
      calculateRevenueShare, resolveAssignmentState, findAssignment,
      findTierDef, findUser, goldDb, goldAssignment, DEFAULT_TIERS,
      List.find?, recordPayout, savePayout]
    try norm_num [toFixed8]

/-- Witness for C9: the worked example extracted through the theorem. -/
theorem processMontlyBatch_spec_witness :
    (processMontlyBatch goldDb 2025 10 [("pz", 0), ("p1", 1000)]).1.skipped = 1 ∧
    (processMontlyBatch goldDb 2025 10 [("pz", 0), ("p1", 1000)]).1.successfulPayouts = 1 ∧
    (processMontlyBatch goldDb 2025 10 [("pz", 0), ("p1", 1000)]).1.totalDispatched = 100 :=
  ⟨(processMontlyBatch_spec goldDb 2025 10 []).2.2.2.2.2.1,
   (processMontlyBatch_spec goldDb 2025 10 []).2.2.2.2.2.2.1,
   (processMontlyBatch_spec goldDb 2025 10 []).2.2.2.2.2.2.2.2.2⟩

end StellarSwipe
